import Mathlib

/-!
Verification development for the Tabulae language core
(`Source/tabulae.py`): lexical scanner, recursive-descent parser and
tree-walking interpreter over a mutable variable/table environment.

The embedding mirrors the Python source:
* Python values are `EValue`: integers, strings, `None`, or references to
  table dictionaries.  Tables live in a `heap` (a list indexed by allocation
  order) because Python passes dictionaries by reference; `dict.copy()` on
  the variable map copies only the name-to-reference bindings.
* Each Python `raise` site is modelled by a distinct constructor of `Err`.
* Recursion that is unbounded in the source (nested parenthesised
  expressions, statement sequences, `runfile` re-entry) is modelled with an
  explicit fuel parameter; exhausted fuel yields the artificial error
  `Err.outOfFuel`, which no real execution path of the source produces.
* Python built-ins are modelled at ASCII fidelity: `str.isdigit`-style
  classes, `int(...)` conversion and identifier characters all use the
  ASCII ranges that the language's own token set exercises.
-/

set_option maxRecDepth 10000

namespace Tabulae

/-- A runtime value of the interpreter: Python `int`, `str`, `None`, or a
reference to a table dictionary stored in the heap. -/
inductive EValue where
  | int (n : Int)
  | str (s : String)
  | none
  | ref (a : Nat)
deriving DecidableEq, Repr

/-- A table: `{'columns': [...], 'data': [...]}` in the source. -/
structure Table where
  columns : List String
  data : List (List EValue)
deriving DecidableEq, Repr

/-- One constructor per `raise` site of the source (plus `outOfFuel` for the
fuel discipline and `invalidRef` for dangling heap references, which no
reachable interpreter state produces).  `importFailed`, `runAsFileFailed`,
`csvImportFailed` and `exportFailed` model the `RuntimeError` wrappers that
re-raise a nested exception with context. -/
inductive Err where
  | outOfFuel
  | unexpectedChar
  | syntaxError
  | attrError
  | typeError
  | zeroDivision
  | recursionError
  | invalidRef
  | unknownTable
  | arityError
  | indexError
  | unknownColumn
  | unknownRow
  | circularImport
  | circularExecution
  | fileNotFound
  | stopIteration
  | csvNotFound
  | importFailed (e : Err)
  | runAsFileFailed (e : Err)
  | csvImportFailed (e : Err)
  | exportFailed (e : Err)
deriving DecidableEq, Repr

/-- A lexical token: kind tag, matched text (quotes stripped for strings),
and source position, as produced by `Lexer.tokenize`. -/
structure Token where
  type : String
  value : String
  line : Nat
  column : Nat
deriving DecidableEq, Repr

/-! ## Scanner (`Lexer`) -/

/-- The continuation class `[a-zA-Z0-9_]` of the identifier pattern
`[a-zA-Z_][a-zA-Z0-9_]*`; it is also the ASCII part of the regex word
class `\w`. -/
def isPyWordChar (c : Char) : Bool :=
  c.isAlpha || c.isDigit || c == '_'

/-- Whitespace class `[ \n\t]`. -/
def isPySpace (c : Char) : Bool :=
  c == ' ' || c == '\n' || c == '\t'

/-- The non-ASCII code-point ranges of the Unicode decimal digits (category
Nd, CPython's `str.isdecimal`, Unicode 14.0 as shipped with CPython 3.11);
within every range the decimal value of a code point is its offset from the
range start modulo 10. -/
def ndNonAsciiRanges : List (Nat × Nat) :=
  [(0x660, 0x669), (0x6F0, 0x6F9), (0x7C0, 0x7C9), (0x966, 0x96F), (0x9E6, 0x9EF),
   (0xA66, 0xA6F), (0xAE6, 0xAEF), (0xB66, 0xB6F), (0xBE6, 0xBEF), (0xC66, 0xC6F),
   (0xCE6, 0xCEF), (0xD66, 0xD6F), (0xDE6, 0xDEF), (0xE50, 0xE59), (0xED0, 0xED9),
   (0xF20, 0xF29), (0x1040, 0x1049), (0x1090, 0x1099), (0x17E0, 0x17E9), (0x1810, 0x1819),
   (0x1946, 0x194F), (0x19D0, 0x19D9), (0x1A80, 0x1A89), (0x1A90, 0x1A99), (0x1B50, 0x1B59),
   (0x1BB0, 0x1BB9), (0x1C40, 0x1C49), (0x1C50, 0x1C59), (0xA620, 0xA629), (0xA8D0, 0xA8D9),
   (0xA900, 0xA909), (0xA9D0, 0xA9D9), (0xA9F0, 0xA9F9), (0xAA50, 0xAA59), (0xABF0, 0xABF9),
   (0xFF10, 0xFF19), (0x104A0, 0x104A9), (0x10D30, 0x10D39), (0x11066, 0x1106F), (0x110F0, 0x110F9),
   (0x11136, 0x1113F), (0x111D0, 0x111D9), (0x112F0, 0x112F9), (0x11450, 0x11459), (0x114D0, 0x114D9),
   (0x11650, 0x11659), (0x116C0, 0x116C9), (0x11730, 0x11739), (0x118E0, 0x118E9), (0x11950, 0x11959),
   (0x11C50, 0x11C59), (0x11D50, 0x11D59), (0x11DA0, 0x11DA9), (0x16A60, 0x16A69), (0x16AC0, 0x16AC9),
   (0x16B50, 0x16B59), (0x1D7CE, 0x1D7FF), (0x1E140, 0x1E149), (0x1E2F0, 0x1E2F9), (0x1E950, 0x1E959),
   (0x1FBF0, 0x1FBF9)]

/-- Decimal value of a non-ASCII decimal digit (`Py_UNICODE_TODECIMAL`). -/
def ndNonAsciiVal (n : Nat) : Option Nat :=
  match ndNonAsciiRanges.find? (fun r => decide (r.1 ≤ n) && decide (n ≤ r.2)) with
  | some r => some ((n - r.1) % 10)
  | Option.none => Option.none

/-- The regex class `\d` of the NUMBER pattern: in a `str` pattern it is
Unicode-aware and matches exactly the Unicode decimal digits; on ASCII these
are the digits `0-9`. -/
def reDigitChar (c : Char) : Bool :=
  if c.toNat < 128 then c.isDigit else (ndNonAsciiVal c.toNat).isSome

/-- The non-ASCII code-point ranges of the alphanumeric characters
(CPython's `str.isalnum`: letters plus the decimal, digit and numeric
characters; Unicode 14.0 as shipped with CPython 3.11). -/
def alnumNonAsciiRanges : List (Nat × Nat) :=
  [(0xAA, 0xAA), (0xB2, 0xB3), (0xB5, 0xB5), (0xB9, 0xBA), (0xBC, 0xBE),
   (0xC0, 0xD6), (0xD8, 0xF6), (0xF8, 0x2C1), (0x2C6, 0x2D1), (0x2E0, 0x2E4),
   (0x2EC, 0x2EC), (0x2EE, 0x2EE), (0x370, 0x374), (0x376, 0x377), (0x37A, 0x37D),
   (0x37F, 0x37F), (0x386, 0x386), (0x388, 0x38A), (0x38C, 0x38C), (0x38E, 0x3A1),
   (0x3A3, 0x3F5), (0x3F7, 0x481), (0x48A, 0x52F), (0x531, 0x556), (0x559, 0x559),
   (0x560, 0x588), (0x5D0, 0x5EA), (0x5EF, 0x5F2), (0x620, 0x64A), (0x660, 0x669),
   (0x66E, 0x66F), (0x671, 0x6D3), (0x6D5, 0x6D5), (0x6E5, 0x6E6), (0x6EE, 0x6FC),
   (0x6FF, 0x6FF), (0x710, 0x710), (0x712, 0x72F), (0x74D, 0x7A5), (0x7B1, 0x7B1),
   (0x7C0, 0x7EA), (0x7F4, 0x7F5), (0x7FA, 0x7FA), (0x800, 0x815), (0x81A, 0x81A),
   (0x824, 0x824), (0x828, 0x828), (0x840, 0x858), (0x860, 0x86A), (0x870, 0x887),
   (0x889, 0x88E), (0x8A0, 0x8C9), (0x904, 0x939), (0x93D, 0x93D), (0x950, 0x950),
   (0x958, 0x961), (0x966, 0x96F), (0x971, 0x980), (0x985, 0x98C), (0x98F, 0x990),
   (0x993, 0x9A8), (0x9AA, 0x9B0), (0x9B2, 0x9B2), (0x9B6, 0x9B9), (0x9BD, 0x9BD),
   (0x9CE, 0x9CE), (0x9DC, 0x9DD), (0x9DF, 0x9E1), (0x9E6, 0x9F1), (0x9F4, 0x9F9),
   (0x9FC, 0x9FC), (0xA05, 0xA0A), (0xA0F, 0xA10), (0xA13, 0xA28), (0xA2A, 0xA30),
   (0xA32, 0xA33), (0xA35, 0xA36), (0xA38, 0xA39), (0xA59, 0xA5C), (0xA5E, 0xA5E),
   (0xA66, 0xA6F), (0xA72, 0xA74), (0xA85, 0xA8D), (0xA8F, 0xA91), (0xA93, 0xAA8),
   (0xAAA, 0xAB0), (0xAB2, 0xAB3), (0xAB5, 0xAB9), (0xABD, 0xABD), (0xAD0, 0xAD0),
   (0xAE0, 0xAE1), (0xAE6, 0xAEF), (0xAF9, 0xAF9), (0xB05, 0xB0C), (0xB0F, 0xB10),
   (0xB13, 0xB28), (0xB2A, 0xB30), (0xB32, 0xB33), (0xB35, 0xB39), (0xB3D, 0xB3D),
   (0xB5C, 0xB5D), (0xB5F, 0xB61), (0xB66, 0xB6F), (0xB71, 0xB77), (0xB83, 0xB83),
   (0xB85, 0xB8A), (0xB8E, 0xB90), (0xB92, 0xB95), (0xB99, 0xB9A), (0xB9C, 0xB9C),
   (0xB9E, 0xB9F), (0xBA3, 0xBA4), (0xBA8, 0xBAA), (0xBAE, 0xBB9), (0xBD0, 0xBD0),
   (0xBE6, 0xBF2), (0xC05, 0xC0C), (0xC0E, 0xC10), (0xC12, 0xC28), (0xC2A, 0xC39),
   (0xC3D, 0xC3D), (0xC58, 0xC5A), (0xC5D, 0xC5D), (0xC60, 0xC61), (0xC66, 0xC6F),
   (0xC78, 0xC7E), (0xC80, 0xC80), (0xC85, 0xC8C), (0xC8E, 0xC90), (0xC92, 0xCA8),
   (0xCAA, 0xCB3), (0xCB5, 0xCB9), (0xCBD, 0xCBD), (0xCDD, 0xCDE), (0xCE0, 0xCE1),
   (0xCE6, 0xCEF), (0xCF1, 0xCF2), (0xD04, 0xD0C), (0xD0E, 0xD10), (0xD12, 0xD3A),
   (0xD3D, 0xD3D), (0xD4E, 0xD4E), (0xD54, 0xD56), (0xD58, 0xD61), (0xD66, 0xD78),
   (0xD7A, 0xD7F), (0xD85, 0xD96), (0xD9A, 0xDB1), (0xDB3, 0xDBB), (0xDBD, 0xDBD),
   (0xDC0, 0xDC6), (0xDE6, 0xDEF), (0xE01, 0xE30), (0xE32, 0xE33), (0xE40, 0xE46),
   (0xE50, 0xE59), (0xE81, 0xE82), (0xE84, 0xE84), (0xE86, 0xE8A), (0xE8C, 0xEA3),
   (0xEA5, 0xEA5), (0xEA7, 0xEB0), (0xEB2, 0xEB3), (0xEBD, 0xEBD), (0xEC0, 0xEC4),
   (0xEC6, 0xEC6), (0xED0, 0xED9), (0xEDC, 0xEDF), (0xF00, 0xF00), (0xF20, 0xF33),
   (0xF40, 0xF47), (0xF49, 0xF6C), (0xF88, 0xF8C), (0x1000, 0x102A), (0x103F, 0x1049),
   (0x1050, 0x1055), (0x105A, 0x105D), (0x1061, 0x1061), (0x1065, 0x1066), (0x106E, 0x1070),
   (0x1075, 0x1081), (0x108E, 0x108E), (0x1090, 0x1099), (0x10A0, 0x10C5), (0x10C7, 0x10C7),
   (0x10CD, 0x10CD), (0x10D0, 0x10FA), (0x10FC, 0x1248), (0x124A, 0x124D), (0x1250, 0x1256),
   (0x1258, 0x1258), (0x125A, 0x125D), (0x1260, 0x1288), (0x128A, 0x128D), (0x1290, 0x12B0),
   (0x12B2, 0x12B5), (0x12B8, 0x12BE), (0x12C0, 0x12C0), (0x12C2, 0x12C5), (0x12C8, 0x12D6),
   (0x12D8, 0x1310), (0x1312, 0x1315), (0x1318, 0x135A), (0x1369, 0x137C), (0x1380, 0x138F),
   (0x13A0, 0x13F5), (0x13F8, 0x13FD), (0x1401, 0x166C), (0x166F, 0x167F), (0x1681, 0x169A),
   (0x16A0, 0x16EA), (0x16EE, 0x16F8), (0x1700, 0x1711), (0x171F, 0x1731), (0x1740, 0x1751),
   (0x1760, 0x176C), (0x176E, 0x1770), (0x1780, 0x17B3), (0x17D7, 0x17D7), (0x17DC, 0x17DC),
   (0x17E0, 0x17E9), (0x17F0, 0x17F9), (0x1810, 0x1819), (0x1820, 0x1878), (0x1880, 0x1884),
   (0x1887, 0x18A8), (0x18AA, 0x18AA), (0x18B0, 0x18F5), (0x1900, 0x191E), (0x1946, 0x196D),
   (0x1970, 0x1974), (0x1980, 0x19AB), (0x19B0, 0x19C9), (0x19D0, 0x19DA), (0x1A00, 0x1A16),
   (0x1A20, 0x1A54), (0x1A80, 0x1A89), (0x1A90, 0x1A99), (0x1AA7, 0x1AA7), (0x1B05, 0x1B33),
   (0x1B45, 0x1B4C), (0x1B50, 0x1B59), (0x1B83, 0x1BA0), (0x1BAE, 0x1BE5), (0x1C00, 0x1C23),
   (0x1C40, 0x1C49), (0x1C4D, 0x1C7D), (0x1C80, 0x1C88), (0x1C90, 0x1CBA), (0x1CBD, 0x1CBF),
   (0x1CE9, 0x1CEC), (0x1CEE, 0x1CF3), (0x1CF5, 0x1CF6), (0x1CFA, 0x1CFA), (0x1D00, 0x1DBF),
   (0x1E00, 0x1F15), (0x1F18, 0x1F1D), (0x1F20, 0x1F45), (0x1F48, 0x1F4D), (0x1F50, 0x1F57),
   (0x1F59, 0x1F59), (0x1F5B, 0x1F5B), (0x1F5D, 0x1F5D), (0x1F5F, 0x1F7D), (0x1F80, 0x1FB4),
   (0x1FB6, 0x1FBC), (0x1FBE, 0x1FBE), (0x1FC2, 0x1FC4), (0x1FC6, 0x1FCC), (0x1FD0, 0x1FD3),
   (0x1FD6, 0x1FDB), (0x1FE0, 0x1FEC), (0x1FF2, 0x1FF4), (0x1FF6, 0x1FFC), (0x2070, 0x2071),
   (0x2074, 0x2079), (0x207F, 0x2089), (0x2090, 0x209C), (0x2102, 0x2102), (0x2107, 0x2107),
   (0x210A, 0x2113), (0x2115, 0x2115), (0x2119, 0x211D), (0x2124, 0x2124), (0x2126, 0x2126),
   (0x2128, 0x2128), (0x212A, 0x212D), (0x212F, 0x2139), (0x213C, 0x213F), (0x2145, 0x2149),
   (0x214E, 0x214E), (0x2150, 0x2189), (0x2460, 0x249B), (0x24EA, 0x24FF), (0x2776, 0x2793),
   (0x2C00, 0x2CE4), (0x2CEB, 0x2CEE), (0x2CF2, 0x2CF3), (0x2CFD, 0x2CFD), (0x2D00, 0x2D25),
   (0x2D27, 0x2D27), (0x2D2D, 0x2D2D), (0x2D30, 0x2D67), (0x2D6F, 0x2D6F), (0x2D80, 0x2D96),
   (0x2DA0, 0x2DA6), (0x2DA8, 0x2DAE), (0x2DB0, 0x2DB6), (0x2DB8, 0x2DBE), (0x2DC0, 0x2DC6),
   (0x2DC8, 0x2DCE), (0x2DD0, 0x2DD6), (0x2DD8, 0x2DDE), (0x2E2F, 0x2E2F), (0x3005, 0x3007),
   (0x3021, 0x3029), (0x3031, 0x3035), (0x3038, 0x303C), (0x3041, 0x3096), (0x309D, 0x309F),
   (0x30A1, 0x30FA), (0x30FC, 0x30FF), (0x3105, 0x312F), (0x3131, 0x318E), (0x3192, 0x3195),
   (0x31A0, 0x31BF), (0x31F0, 0x31FF), (0x3220, 0x3229), (0x3248, 0x324F), (0x3251, 0x325F),
   (0x3280, 0x3289), (0x32B1, 0x32BF), (0x3400, 0x4DBF), (0x4E00, 0xA48C), (0xA4D0, 0xA4FD),
   (0xA500, 0xA60C), (0xA610, 0xA62B), (0xA640, 0xA66E), (0xA67F, 0xA69D), (0xA6A0, 0xA6EF),
   (0xA717, 0xA71F), (0xA722, 0xA788), (0xA78B, 0xA7CA), (0xA7D0, 0xA7D1), (0xA7D3, 0xA7D3),
   (0xA7D5, 0xA7D9), (0xA7F2, 0xA801), (0xA803, 0xA805), (0xA807, 0xA80A), (0xA80C, 0xA822),
   (0xA830, 0xA835), (0xA840, 0xA873), (0xA882, 0xA8B3), (0xA8D0, 0xA8D9), (0xA8F2, 0xA8F7),
   (0xA8FB, 0xA8FB), (0xA8FD, 0xA8FE), (0xA900, 0xA925), (0xA930, 0xA946), (0xA960, 0xA97C),
   (0xA984, 0xA9B2), (0xA9CF, 0xA9D9), (0xA9E0, 0xA9E4), (0xA9E6, 0xA9FE), (0xAA00, 0xAA28),
   (0xAA40, 0xAA42), (0xAA44, 0xAA4B), (0xAA50, 0xAA59), (0xAA60, 0xAA76), (0xAA7A, 0xAA7A),
   (0xAA7E, 0xAAAF), (0xAAB1, 0xAAB1), (0xAAB5, 0xAAB6), (0xAAB9, 0xAABD), (0xAAC0, 0xAAC0),
   (0xAAC2, 0xAAC2), (0xAADB, 0xAADD), (0xAAE0, 0xAAEA), (0xAAF2, 0xAAF4), (0xAB01, 0xAB06),
   (0xAB09, 0xAB0E), (0xAB11, 0xAB16), (0xAB20, 0xAB26), (0xAB28, 0xAB2E), (0xAB30, 0xAB5A),
   (0xAB5C, 0xAB69), (0xAB70, 0xABE2), (0xABF0, 0xABF9), (0xAC00, 0xD7A3), (0xD7B0, 0xD7C6),
   (0xD7CB, 0xD7FB), (0xF900, 0xFA6D), (0xFA70, 0xFAD9), (0xFB00, 0xFB06), (0xFB13, 0xFB17),
   (0xFB1D, 0xFB1D), (0xFB1F, 0xFB28), (0xFB2A, 0xFB36), (0xFB38, 0xFB3C), (0xFB3E, 0xFB3E),
   (0xFB40, 0xFB41), (0xFB43, 0xFB44), (0xFB46, 0xFBB1), (0xFBD3, 0xFD3D), (0xFD50, 0xFD8F),
   (0xFD92, 0xFDC7), (0xFDF0, 0xFDFB), (0xFE70, 0xFE74), (0xFE76, 0xFEFC), (0xFF10, 0xFF19),
   (0xFF21, 0xFF3A), (0xFF41, 0xFF5A), (0xFF66, 0xFFBE), (0xFFC2, 0xFFC7), (0xFFCA, 0xFFCF),
   (0xFFD2, 0xFFD7), (0xFFDA, 0xFFDC), (0x10000, 0x1000B), (0x1000D, 0x10026), (0x10028, 0x1003A),
   (0x1003C, 0x1003D), (0x1003F, 0x1004D), (0x10050, 0x1005D), (0x10080, 0x100FA), (0x10107, 0x10133),
   (0x10140, 0x10178), (0x1018A, 0x1018B), (0x10280, 0x1029C), (0x102A0, 0x102D0), (0x102E1, 0x102FB),
   (0x10300, 0x10323), (0x1032D, 0x1034A), (0x10350, 0x10375), (0x10380, 0x1039D), (0x103A0, 0x103C3),
   (0x103C8, 0x103CF), (0x103D1, 0x103D5), (0x10400, 0x1049D), (0x104A0, 0x104A9), (0x104B0, 0x104D3),
   (0x104D8, 0x104FB), (0x10500, 0x10527), (0x10530, 0x10563), (0x10570, 0x1057A), (0x1057C, 0x1058A),
   (0x1058C, 0x10592), (0x10594, 0x10595), (0x10597, 0x105A1), (0x105A3, 0x105B1), (0x105B3, 0x105B9),
   (0x105BB, 0x105BC), (0x10600, 0x10736), (0x10740, 0x10755), (0x10760, 0x10767), (0x10780, 0x10785),
   (0x10787, 0x107B0), (0x107B2, 0x107BA), (0x10800, 0x10805), (0x10808, 0x10808), (0x1080A, 0x10835),
   (0x10837, 0x10838), (0x1083C, 0x1083C), (0x1083F, 0x10855), (0x10858, 0x10876), (0x10879, 0x1089E),
   (0x108A7, 0x108AF), (0x108E0, 0x108F2), (0x108F4, 0x108F5), (0x108FB, 0x1091B), (0x10920, 0x10939),
   (0x10980, 0x109B7), (0x109BC, 0x109CF), (0x109D2, 0x10A00), (0x10A10, 0x10A13), (0x10A15, 0x10A17),
   (0x10A19, 0x10A35), (0x10A40, 0x10A48), (0x10A60, 0x10A7E), (0x10A80, 0x10A9F), (0x10AC0, 0x10AC7),
   (0x10AC9, 0x10AE4), (0x10AEB, 0x10AEF), (0x10B00, 0x10B35), (0x10B40, 0x10B55), (0x10B58, 0x10B72),
   (0x10B78, 0x10B91), (0x10BA9, 0x10BAF), (0x10C00, 0x10C48), (0x10C80, 0x10CB2), (0x10CC0, 0x10CF2),
   (0x10CFA, 0x10D23), (0x10D30, 0x10D39), (0x10E60, 0x10E7E), (0x10E80, 0x10EA9), (0x10EB0, 0x10EB1),
   (0x10F00, 0x10F27), (0x10F30, 0x10F45), (0x10F51, 0x10F54), (0x10F70, 0x10F81), (0x10FB0, 0x10FCB),
   (0x10FE0, 0x10FF6), (0x11003, 0x11037), (0x11052, 0x1106F), (0x11071, 0x11072), (0x11075, 0x11075),
   (0x11083, 0x110AF), (0x110D0, 0x110E8), (0x110F0, 0x110F9), (0x11103, 0x11126), (0x11136, 0x1113F),
   (0x11144, 0x11144), (0x11147, 0x11147), (0x11150, 0x11172), (0x11176, 0x11176), (0x11183, 0x111B2),
   (0x111C1, 0x111C4), (0x111D0, 0x111DA), (0x111DC, 0x111DC), (0x111E1, 0x111F4), (0x11200, 0x11211),
   (0x11213, 0x1122B), (0x11280, 0x11286), (0x11288, 0x11288), (0x1128A, 0x1128D), (0x1128F, 0x1129D),
   (0x1129F, 0x112A8), (0x112B0, 0x112DE), (0x112F0, 0x112F9), (0x11305, 0x1130C), (0x1130F, 0x11310),
   (0x11313, 0x11328), (0x1132A, 0x11330), (0x11332, 0x11333), (0x11335, 0x11339), (0x1133D, 0x1133D),
   (0x11350, 0x11350), (0x1135D, 0x11361), (0x11400, 0x11434), (0x11447, 0x1144A), (0x11450, 0x11459),
   (0x1145F, 0x11461), (0x11480, 0x114AF), (0x114C4, 0x114C5), (0x114C7, 0x114C7), (0x114D0, 0x114D9),
   (0x11580, 0x115AE), (0x115D8, 0x115DB), (0x11600, 0x1162F), (0x11644, 0x11644), (0x11650, 0x11659),
   (0x11680, 0x116AA), (0x116B8, 0x116B8), (0x116C0, 0x116C9), (0x11700, 0x1171A), (0x11730, 0x1173B),
   (0x11740, 0x11746), (0x11800, 0x1182B), (0x118A0, 0x118F2), (0x118FF, 0x11906), (0x11909, 0x11909),
   (0x1190C, 0x11913), (0x11915, 0x11916), (0x11918, 0x1192F), (0x1193F, 0x1193F), (0x11941, 0x11941),
   (0x11950, 0x11959), (0x119A0, 0x119A7), (0x119AA, 0x119D0), (0x119E1, 0x119E1), (0x119E3, 0x119E3),
   (0x11A00, 0x11A00), (0x11A0B, 0x11A32), (0x11A3A, 0x11A3A), (0x11A50, 0x11A50), (0x11A5C, 0x11A89),
   (0x11A9D, 0x11A9D), (0x11AB0, 0x11AF8), (0x11C00, 0x11C08), (0x11C0A, 0x11C2E), (0x11C40, 0x11C40),
   (0x11C50, 0x11C6C), (0x11C72, 0x11C8F), (0x11D00, 0x11D06), (0x11D08, 0x11D09), (0x11D0B, 0x11D30),
   (0x11D46, 0x11D46), (0x11D50, 0x11D59), (0x11D60, 0x11D65), (0x11D67, 0x11D68), (0x11D6A, 0x11D89),
   (0x11D98, 0x11D98), (0x11DA0, 0x11DA9), (0x11EE0, 0x11EF2), (0x11FB0, 0x11FB0), (0x11FC0, 0x11FD4),
   (0x12000, 0x12399), (0x12400, 0x1246E), (0x12480, 0x12543), (0x12F90, 0x12FF0), (0x13000, 0x1342E),
   (0x14400, 0x14646), (0x16800, 0x16A38), (0x16A40, 0x16A5E), (0x16A60, 0x16A69), (0x16A70, 0x16ABE),
   (0x16AC0, 0x16AC9), (0x16AD0, 0x16AED), (0x16B00, 0x16B2F), (0x16B40, 0x16B43), (0x16B50, 0x16B59),
   (0x16B5B, 0x16B61), (0x16B63, 0x16B77), (0x16B7D, 0x16B8F), (0x16E40, 0x16E96), (0x16F00, 0x16F4A),
   (0x16F50, 0x16F50), (0x16F93, 0x16F9F), (0x16FE0, 0x16FE1), (0x16FE3, 0x16FE3), (0x17000, 0x187F7),
   (0x18800, 0x18CD5), (0x18D00, 0x18D08), (0x1AFF0, 0x1AFF3), (0x1AFF5, 0x1AFFB), (0x1AFFD, 0x1AFFE),
   (0x1B000, 0x1B122), (0x1B150, 0x1B152), (0x1B164, 0x1B167), (0x1B170, 0x1B2FB), (0x1BC00, 0x1BC6A),
   (0x1BC70, 0x1BC7C), (0x1BC80, 0x1BC88), (0x1BC90, 0x1BC99), (0x1D2E0, 0x1D2F3), (0x1D360, 0x1D378),
   (0x1D400, 0x1D454), (0x1D456, 0x1D49C), (0x1D49E, 0x1D49F), (0x1D4A2, 0x1D4A2), (0x1D4A5, 0x1D4A6),
   (0x1D4A9, 0x1D4AC), (0x1D4AE, 0x1D4B9), (0x1D4BB, 0x1D4BB), (0x1D4BD, 0x1D4C3), (0x1D4C5, 0x1D505),
   (0x1D507, 0x1D50A), (0x1D50D, 0x1D514), (0x1D516, 0x1D51C), (0x1D51E, 0x1D539), (0x1D53B, 0x1D53E),
   (0x1D540, 0x1D544), (0x1D546, 0x1D546), (0x1D54A, 0x1D550), (0x1D552, 0x1D6A5), (0x1D6A8, 0x1D6C0),
   (0x1D6C2, 0x1D6DA), (0x1D6DC, 0x1D6FA), (0x1D6FC, 0x1D714), (0x1D716, 0x1D734), (0x1D736, 0x1D74E),
   (0x1D750, 0x1D76E), (0x1D770, 0x1D788), (0x1D78A, 0x1D7A8), (0x1D7AA, 0x1D7C2), (0x1D7C4, 0x1D7CB),
   (0x1D7CE, 0x1D7FF), (0x1DF00, 0x1DF1E), (0x1E100, 0x1E12C), (0x1E137, 0x1E13D), (0x1E140, 0x1E149),
   (0x1E14E, 0x1E14E), (0x1E290, 0x1E2AD), (0x1E2C0, 0x1E2EB), (0x1E2F0, 0x1E2F9), (0x1E7E0, 0x1E7E6),
   (0x1E7E8, 0x1E7EB), (0x1E7ED, 0x1E7EE), (0x1E7F0, 0x1E7FE), (0x1E800, 0x1E8C4), (0x1E8C7, 0x1E8CF),
   (0x1E900, 0x1E943), (0x1E94B, 0x1E94B), (0x1E950, 0x1E959), (0x1EC71, 0x1ECAB), (0x1ECAD, 0x1ECAF),
   (0x1ECB1, 0x1ECB4), (0x1ED01, 0x1ED2D), (0x1ED2F, 0x1ED3D), (0x1EE00, 0x1EE03), (0x1EE05, 0x1EE1F),
   (0x1EE21, 0x1EE22), (0x1EE24, 0x1EE24), (0x1EE27, 0x1EE27), (0x1EE29, 0x1EE32), (0x1EE34, 0x1EE37),
   (0x1EE39, 0x1EE39), (0x1EE3B, 0x1EE3B), (0x1EE42, 0x1EE42), (0x1EE47, 0x1EE47), (0x1EE49, 0x1EE49),
   (0x1EE4B, 0x1EE4B), (0x1EE4D, 0x1EE4F), (0x1EE51, 0x1EE52), (0x1EE54, 0x1EE54), (0x1EE57, 0x1EE57),
   (0x1EE59, 0x1EE59), (0x1EE5B, 0x1EE5B), (0x1EE5D, 0x1EE5D), (0x1EE5F, 0x1EE5F), (0x1EE61, 0x1EE62),
   (0x1EE64, 0x1EE64), (0x1EE67, 0x1EE6A), (0x1EE6C, 0x1EE72), (0x1EE74, 0x1EE77), (0x1EE79, 0x1EE7C),
   (0x1EE7E, 0x1EE7E), (0x1EE80, 0x1EE89), (0x1EE8B, 0x1EE9B), (0x1EEA1, 0x1EEA3), (0x1EEA5, 0x1EEA9),
   (0x1EEAB, 0x1EEBB), (0x1F100, 0x1F10C), (0x1FBF0, 0x1FBF9), (0x20000, 0x2A6DF), (0x2A700, 0x2B738),
   (0x2B740, 0x2B81D), (0x2B820, 0x2CEA1), (0x2CEB0, 0x2EBE0), (0x2F800, 0x2FA1D), (0x30000, 0x3134A)]

/-- The regex class `\w` used by the keyword boundary `\b`: in a `str`
pattern it is Unicode-aware and matches the alphanumeric characters plus
underscore; on ASCII this is exactly `[a-zA-Z0-9_]`. -/
def reWordChar (c : Char) : Bool :=
  if c.toNat < 128 then isPyWordChar c
  else alnumNonAsciiRanges.any (fun r => decide (r.1 ≤ c.toNat) && decide (c.toNat ≤ r.2))

/-- Match a literal pattern (an operator or a keyword body) at the start of
the input. -/
def matchLit (lit : List Char) (cs : List Char) : Option (List Char × List Char) :=
  if cs.take lit.length = lit then some (lit, cs.drop lit.length) else Option.none

/-- The `\b` at the end of a keyword pattern: the next character, if any, is
not a `\w` word character (every keyword ends in a letter). -/
def wordBoundary : List Char → Bool
  | [] => true
  | c :: _ => !(reWordChar c)

/-- Match a keyword pattern such as `print\b`. -/
def matchKeyword (kw : List Char) (cs : List Char) : Option (List Char × List Char) :=
  match matchLit kw cs with
  | some (v, rest) => if wordBoundary rest then some (v, rest) else Option.none
  | Option.none => Option.none

/-- Match the string-literal pattern `"[^"]*"`; the matched text keeps its
quotes (they are stripped later, in `mkToken`). -/
def matchStringLit : List Char → Option (List Char × List Char)
  | '"' :: rest =>
    match rest.dropWhile (fun c => c ≠ '"') with
    | '"' :: rest2 =>
      some ('"' :: (rest.takeWhile (fun c => c ≠ '"') ++ ['"']), rest2)
    | _ => Option.none
  | _ => Option.none

/-- Match a nonempty run of characters of a class (`[ \n\t]+`, `\d+`). -/
def matchClass (p : Char → Bool) : List Char → Option (List Char × List Char)
  | c :: rest =>
    if p c then some (c :: rest.takeWhile p, rest.dropWhile p) else Option.none
  | [] => Option.none

/-- Match a comment `#[^\n]*`. -/
def matchComment : List Char → Option (List Char × List Char)
  | '#' :: rest =>
    some ('#' :: rest.takeWhile (fun c => c ≠ '\n'), rest.dropWhile (fun c => c ≠ '\n'))
  | _ => Option.none

/-- Match the identifier pattern `[a-zA-Z_][a-zA-Z0-9_]*`. -/
def matchIdent : List Char → Option (List Char × List Char)
  | c :: rest =>
    if c.isAlpha || c == '_' then
      some (c :: rest.takeWhile isPyWordChar, rest.dropWhile isPyWordChar)
    else Option.none
  | [] => Option.none

/-- Attach a token tag (`Option.none` for whitespace and comments, which emit
no token) to a matcher result. -/
def tagged (tag : Option String) (r : Option (List Char × List Char)) :
    Option (Option String × List Char × List Char) :=
  match r with
  | some (v, rest) => some (tag, v, rest)
  | Option.none => Option.none

/-- Try the patterns of `Lexer.token_specs` in their declared priority order;
the first pattern that matches at the current position wins. -/
def firstMatch (cs : List Char) : Option (Option String × List Char × List Char) :=
  match matchLit ['>', '='] cs with
  | some (v, r) => some (some "GREATEREQUAL", v, r)
  | Option.none =>
  match matchLit ['<', '='] cs with
  | some (v, r) => some (some "LESSEQUAL", v, r)
  | Option.none =>
  match matchLit ['=', '='] cs with
  | some (v, r) => some (some "EQUAL", v, r)
  | Option.none =>
  match matchLit ['!', '='] cs with
  | some (v, r) => some (some "NOTEQUAL", v, r)
  | Option.none =>
  match matchStringLit cs with
  | some (v, r) => some (some "STRING", v, r)
  | Option.none =>
  match matchLit ['>'] cs with
  | some (v, r) => some (some "GREATER", v, r)
  | Option.none =>
  match matchLit ['<'] cs with
  | some (v, r) => some (some "LESS", v, r)
  | Option.none =>
  match matchClass isPySpace cs with
  | some (v, r) => some (Option.none, v, r)
  | Option.none =>
  match matchComment cs with
  | some (v, r) => some (Option.none, v, r)
  | Option.none =>
  match matchLit ['='] cs with
  | some (v, r) => some (some "ASSIGN", v, r)
  | Option.none =>
  match matchLit ['+'] cs with
  | some (v, r) => some (some "PLUS", v, r)
  | Option.none =>
  match matchLit ['-'] cs with
  | some (v, r) => some (some "MINUS", v, r)
  | Option.none =>
  match matchLit ['*'] cs with
  | some (v, r) => some (some "MULTIPLY", v, r)
  | Option.none =>
  match matchLit ['/'] cs with
  | some (v, r) => some (some "DIVIDE", v, r)
  | Option.none =>
  match matchLit ['('] cs with
  | some (v, r) => some (some "LPAREN", v, r)
  | Option.none =>
  match matchLit [')'] cs with
  | some (v, r) => some (some "RPAREN", v, r)
  | Option.none =>
  match matchLit ['['] cs with
  | some (v, r) => some (some "LBRACKET", v, r)
  | Option.none =>
  match matchLit [']'] cs with
  | some (v, r) => some (some "RBRACKET", v, r)
  | Option.none =>
  match matchLit [','] cs with
  | some (v, r) => some (some "COMMA", v, r)
  | Option.none =>
  match matchClass reDigitChar cs with
  | some (v, r) => some (some "NUMBER", v, r)
  | Option.none =>
  match matchKeyword "importcsv".data cs with
  | some (v, r) => some (some "IMPORT_CSV", v, r)
  | Option.none =>
  match matchKeyword "import".data cs with
  | some (v, r) => some (some "IMPORT", v, r)
  | Option.none =>
  match matchKeyword "as".data cs with
  | some (v, r) => some (some "AS", v, r)
  | Option.none =>
  match matchKeyword "editcell".data cs with
  | some (v, r) => some (some "EDITCELL", v, r)
  | Option.none =>
  match matchKeyword "print".data cs with
  | some (v, r) => some (some "PRINT", v, r)
  | Option.none =>
  match matchKeyword "query".data cs with
  | some (v, r) => some (some "QUERY", v, r)
  | Option.none =>
  match matchKeyword "maketable".data cs with
  | some (v, r) => some (some "MAKETABLE", v, r)
  | Option.none =>
  match matchKeyword "editrow".data cs with
  | some (v, r) => some (some "EDITROW", v, r)
  | Option.none =>
  match matchKeyword "exportcsv".data cs with
  | some (v, r) => some (some "EXPORTCSV", v, r)
  | Option.none =>
  match matchKeyword "runfile".data cs with
  | some (v, r) => some (some "RUNASFILE", v, r)
  | Option.none =>
  match matchIdent cs with
  | some (v, r) => some (some "IDENTIFIER", v, r)
  | Option.none => Option.none

/-- Advance the line/column counters over matched text, handling embedded
newlines the way `Lexer.tokenize` does. -/
def advancePos (line col : Nat) (text : List Char) : Nat × Nat :=
  let n := text.count '\n'
  if 0 < n then
    (line + n, (text.reverse.takeWhile (fun c => c ≠ '\n')).length + 1)
  else
    (line, col + text.length)

/-- Build a token from a match; string literals store their content with the
surrounding quotes stripped (`value[1:-1]`). -/
def mkToken (tag : String) (text : List Char) (line col : Nat) : Token :=
  { type := tag
    value := if tag = "STRING" then String.mk (text.drop 1).dropLast else String.mk text
    line := line
    column := col }

/-- One step of token emission: propagate a failure of the remaining scan,
and otherwise prepend a token unless the matched pattern was whitespace or
a comment (tag `Option.none`). -/
def emitStep (tag? : Option String) (text : List Char) (line col : Nat) :
    Except Err (List Token) → Except Err (List Token)
  | .error e => .error e
  | .ok ts =>
    match tag? with
    | Option.none => .ok ts
    | some tag => .ok (mkToken tag text line col :: ts)

/-- The scanning loop of `Lexer.tokenize`: repeatedly take the first matching
pattern, emit a token unless the pattern is whitespace or a comment, and fail
on the first character no pattern matches. -/
def tokenizeGo : Nat → List Char → Nat → Nat → Except Err (List Token)
  | _, [], _, _ => .ok []
  | 0, _ :: _, _, _ => .error .outOfFuel
  | fuel+1, cs, line, col =>
    match firstMatch cs with
    | Option.none => .error .unexpectedChar
    | some (tag?, text, rest) =>
      emitStep tag? text line col
        (tokenizeGo fuel rest (advancePos line col text).1 (advancePos line col text).2)

/-- `Lexer(code).tokenize()`.  Every successful pattern match consumes at
least one character, so `length + 1` fuel is never exhausted on the paths the
source can take. -/
def tokenize (code : String) : Except Err (List Token) :=
  tokenizeGo (code.data.length + 1) code.data 1 1

/-! ## Grammar (AST node set) -/

/-- Expression nodes (`NumberNode`, `StringNode`, `IdentifierNode`,
`BinaryOpNode`); `op` stores the operator token's kind tag. -/
inductive Expr where
  | num (n : Int)
  | str (s : String)
  | ident (name : String)
  | binop (left : Expr) (op : String) (right : Expr)
deriving DecidableEq, Repr

/-- A `ComparisonOpNode`; `op` stores the operator token's kind tag. -/
structure Cmp where
  left : Expr
  op : String
  right : Expr
deriving DecidableEq, Repr

/-- Statement nodes.  `includeFile` is `ImportNode` (the `import` statement)
and `runAsFile` is `RunAsFileNode` (the `runfile` statement). -/
inductive Stmt where
  | assign (name : String) (e : Expr)
  | printStmt (e : Expr)
  | makeTable (name : String) (columns : List String)
  | editRow (name : String) (values : List Expr)
  | editCell (name : String) (colExpr keyExpr valExpr : Expr)
  | query (name : String) (cond : Option Cmp)
  | exportCSV (name : String) (filename : String)
  | importCSV (filename : String) (name : String)
  | includeFile (filename : String)
  | runAsFile (filename : String)
deriving DecidableEq, Repr

/-! ## Parser

The Python parser keeps a `current_token` plus a list of pending tokens; the
embedding represents that state as a single `List Token` whose head is the
current token.  Reading `current_token.type` while `current_token` is `None`
is an `AttributeError` in Python, modelled by `Err.attrError`.  Functions
that can recurse unboundedly (through parenthesised expressions or statement
sequences) take fuel. -/

/-- Numeric value of a digit run, for `int(token.value)` on NUMBER tokens. -/
def natOfDigits (cs : List Char) : Nat :=
  cs.foldl (fun acc c => acc * 10 + (c.toNat - 48)) 0

mutual

/-- `parse_expression`: a term, then left-associated `+`/`-` chains. -/
def parse_expression : Nat → List Token → Except Err (Expr × List Token)
  | 0, _ => .error .outOfFuel
  | fuel+1, ts =>
    match parse_term fuel ts with
    | .error e => .error e
    | .ok (node, ts1) => parse_expression_loop fuel node ts1

/-- The `while`-loop of `parse_expression` over PLUS/MINUS tokens. -/
def parse_expression_loop : Nat → Expr → List Token → Except Err (Expr × List Token)
  | 0, _, _ => .error .outOfFuel
  | fuel+1, node, ts =>
    match ts with
    | t :: rest =>
      if t.type = "PLUS" ∨ t.type = "MINUS" then
        match parse_term fuel rest with
        | .error e => .error e
        | .ok (rhs, ts2) => parse_expression_loop fuel (.binop node t.type rhs) ts2
      else .ok (node, ts)
    | [] => .ok (node, [])

/-- `parse_term`: a factor, then left-associated `*`/`/` chains. -/
def parse_term : Nat → List Token → Except Err (Expr × List Token)
  | 0, _ => .error .outOfFuel
  | fuel+1, ts =>
    match parse_factor fuel ts with
    | .error e => .error e
    | .ok (node, ts1) => parse_term_loop fuel node ts1

/-- The `while`-loop of `parse_term` over MULTIPLY/DIVIDE tokens. -/
def parse_term_loop : Nat → Expr → List Token → Except Err (Expr × List Token)
  | 0, _, _ => .error .outOfFuel
  | fuel+1, node, ts =>
    match ts with
    | t :: rest =>
      if t.type = "MULTIPLY" ∨ t.type = "DIVIDE" then
        match parse_factor fuel rest with
        | .error e => .error e
        | .ok (rhs, ts2) => parse_term_loop fuel (.binop node t.type rhs) ts2
      else .ok (node, ts)
    | [] => .ok (node, [])

/-- `parse_factor`: number, string, identifier or parenthesised expression. -/
def parse_factor : Nat → List Token → Except Err (Expr × List Token)
  | 0, _ => .error .outOfFuel
  | fuel+1, ts =>
    match ts with
    | [] => .error .attrError
    | t :: rest =>
      if t.type = "NUMBER" then .ok (.num (Int.ofNat (natOfDigits t.value.data)), rest)
      else if t.type = "STRING" then .ok (.str t.value, rest)
      else if t.type = "IDENTIFIER" then .ok (.ident t.value, rest)
      else if t.type = "LPAREN" then
        match parse_expression fuel rest with
        | .error e => .error e
        | .ok (node, ts1) =>
          match ts1 with
          | [] => .error .attrError
          | u :: rest2 => if u.type = "RPAREN" then .ok (node, rest2) else .error .syntaxError
      else .error .syntaxError

end

/-- The comparison operator kinds accepted by `parse_comparison`. -/
def validCompOps : List String :=
  ["GREATER", "LESS", "EQUAL", "NOTEQUAL", "GREATEREQUAL", "LESSEQUAL"]

/-- `parse_comparison`: expression, comparison operator, expression. -/
def parse_comparison (fuel : Nat) (ts : List Token) : Except Err (Cmp × List Token) :=
  match parse_expression fuel ts with
  | .error e => .error e
  | .ok (left, ts1) =>
    match ts1 with
    | [] => .error .attrError
    | op :: rest =>
      if op.type ∈ validCompOps then
        match parse_expression fuel rest with
        | .error e => .error e
        | .ok (right, ts2) => .ok ({ left := left, op := op.type, right := right }, ts2)
      else .error .syntaxError

/-- `parse_assignment`: takes the current token's text as the target name
without checking the token's kind, then requires an ASSIGN token. -/
def parse_assignment (fuel : Nat) (ts : List Token) : Except Err (Stmt × List Token) :=
  match ts with
  | [] => .error .attrError
  | t :: rest =>
    match rest with
    | [] => .error .syntaxError
    | u :: rest2 =>
      if u.type = "ASSIGN" then
        match parse_expression fuel rest2 with
        | .error e => .error e
        | .ok (e, ts2) => .ok (.assign t.value e, ts2)
      else .error .syntaxError

/-- `parse_print`. -/
def parse_print (fuel : Nat) (ts : List Token) : Except Err (Stmt × List Token) :=
  match ts with
  | [] => .error .attrError
  | _ :: rest =>
    match parse_expression fuel rest with
    | .error e => .error e
    | .ok (e, ts1) => .ok (.printStmt e, ts1)

/-- The column-list loop of `parse_maketable`; stops with the closing
bracket still current. -/
def parseColumns : List Token → Except Err (List String × List Token)
  | [] => .error .attrError
  | t :: rest =>
    if t.type = "RBRACKET" then .ok ([], t :: rest)
    else if t.type = "IDENTIFIER" then
      match rest with
      | [] => .error .attrError
      | u :: rest2 =>
        if u.type = "COMMA" then
          match parseColumns rest2 with
          | .error e => .error e
          | .ok (cols, ts3) => .ok (t.value :: cols, ts3)
        else
          match parseColumns (u :: rest2) with
          | .error e => .error e
          | .ok (cols, ts3) => .ok (t.value :: cols, ts3)
    else .error .syntaxError

/-- `parse_maketable`. -/
def parse_maketable (ts : List Token) : Except Err (Stmt × List Token) :=
  match ts with
  | [] => .error .attrError
  | _ :: rest =>
    match rest with
    | [] => .error .attrError
    | t :: rest2 =>
      if t.type = "IDENTIFIER" then
        match rest2 with
        | [] => .error .attrError
        | u :: rest3 =>
          if u.type = "LBRACKET" then
            match parseColumns rest3 with
            | .error e => .error e
            | .ok (cols, ts4) =>
              match ts4 with
              | [] => .error .attrError
              | b :: rest5 =>
                if b.type = "RBRACKET" then .ok (.makeTable t.value cols, rest5)
                else .error .syntaxError
          else .error .syntaxError
      else .error .syntaxError

/-- The value-list loop of `parse_editrow`; stops with the closing bracket
still current. -/
def parseExprList : Nat → List Token → Except Err (List Expr × List Token)
  | _, [] => .error .attrError
  | 0, _ :: _ => .error .outOfFuel
  | fuel+1, t :: rest =>
    if t.type = "RBRACKET" then .ok ([], t :: rest)
    else
      match parse_expression fuel (t :: rest) with
      | .error e => .error e
      | .ok (e, ts1) =>
        match ts1 with
        | [] => .error .attrError
        | u :: rest2 =>
          if u.type = "COMMA" then
            match parseExprList fuel rest2 with
            | .error e2 => .error e2
            | .ok (es, ts3) => .ok (e :: es, ts3)
          else
            match parseExprList fuel (u :: rest2) with
            | .error e2 => .error e2
            | .ok (es, ts3) => .ok (e :: es, ts3)

/-- `parse_editrow`. -/
def parse_editrow (fuel : Nat) (ts : List Token) : Except Err (Stmt × List Token) :=
  match ts with
  | [] => .error .attrError
  | _ :: rest =>
    match rest with
    | [] => .error .attrError
    | t :: rest2 =>
      if t.type = "IDENTIFIER" then
        match rest2 with
        | [] => .error .attrError
        | u :: rest3 =>
          if u.type = "LBRACKET" then
            match parseExprList fuel rest3 with
            | .error e => .error e
            | .ok (values, ts4) =>
              match ts4 with
              | [] => .error .attrError
              | b :: rest5 =>
                if b.type = "RBRACKET" then .ok (.editRow t.value values, rest5)
                else .error .syntaxError
          else .error .syntaxError
      else .error .syntaxError

/-- The bounded expression loop of `parse_editcell` (`len(exprs) < 3`). -/
def parseEditCellExprs : Nat → Nat → List Token → Except Err (List Expr × List Token)
  | _, _, [] => .ok ([], [])
  | fuel, k, t :: rest =>
    if t.type = "RBRACKET" then .ok ([], t :: rest)
    else
      match k with
      | 0 => .ok ([], t :: rest)
      | k+1 =>
        match fuel with
        | 0 => .error .outOfFuel
        | fuel+1 =>
          match parse_expression fuel (t :: rest) with
          | .error e => .error e
          | .ok (e, ts1) =>
            match parseEditCellExprs fuel k
                (match ts1 with
                 | u :: r2 => if u.type = "COMMA" then r2 else u :: r2
                 | [] => []) with
            | .error e2 => .error e2
            | .ok (es, ts3) => .ok (e :: es, ts3)

/-- `parse_editcell`: exactly three argument expressions. -/
def parse_editcell (fuel : Nat) (ts : List Token) : Except Err (Stmt × List Token) :=
  match ts with
  | [] => .error .attrError
  | _ :: rest =>
    match rest with
    | [] => .error .attrError
    | t :: rest2 =>
      if t.type = "IDENTIFIER" then
        match rest2 with
        | [] => .error .attrError
        | u :: rest3 =>
          if u.type = "LBRACKET" then
            match parseEditCellExprs fuel 3 rest3 with
            | .error e => .error e
            | .ok (exprs, ts4) =>
              if exprs.length = 3 then
                match ts4 with
                | [] => .error .attrError
                | b :: rest5 =>
                  if b.type = "RBRACKET" then
                    match exprs with
                    | [e1, e2, e3] => .ok (.editCell t.value e1 e2 e3, rest5)
                    | _ => .error .syntaxError
                  else .error .syntaxError
              else
                match ts4 with
                | [] => .error .attrError
                | _ :: _ => .error .syntaxError
          else .error .syntaxError
      else .error .syntaxError

/-- `parse_query`: table name, then an optional single comparison — parsed
whenever any token remains after the name. -/
def parse_query (fuel : Nat) (ts : List Token) : Except Err (Stmt × List Token) :=
  match ts with
  | [] => .error .attrError
  | _ :: rest =>
    match rest with
    | [] => .error .attrError
    | t :: rest2 =>
      if t.type = "IDENTIFIER" then
        match rest2 with
        | [] => .ok (.query t.value Option.none, [])
        | _ :: _ =>
          match parse_comparison fuel rest2 with
          | .error e => .error e
          | .ok (c, ts3) => .ok (.query t.value (some c), ts3)
      else .error .syntaxError

/-- `parse_exportcsv`. -/
def parse_exportcsv (ts : List Token) : Except Err (Stmt × List Token) :=
  match ts with
  | [] => .error .attrError
  | _ :: rest =>
    match rest with
    | [] => .error .attrError
    | t :: rest2 =>
      if t.type = "IDENTIFIER" then
        match rest2 with
        | [] => .error .attrError
        | u :: rest3 =>
          if u.type = "STRING" then .ok (.exportCSV t.value u.value, rest3)
          else .error .syntaxError
      else .error .syntaxError

/-- `parse_importcsv`. -/
def parse_importcsv (ts : List Token) : Except Err (Stmt × List Token) :=
  match ts with
  | [] => .error .attrError
  | _ :: rest =>
    match rest with
    | [] => .error .attrError
    | t :: rest2 =>
      if t.type = "STRING" then
        match rest2 with
        | [] => .error .attrError
        | u :: rest3 =>
          if u.type = "AS" then
            match rest3 with
            | [] => .error .attrError
            | w :: rest4 =>
              if w.type = "IDENTIFIER" then .ok (.importCSV t.value w.value, rest4)
              else .error .syntaxError
          else .error .syntaxError
      else .error .syntaxError

/-- `parse_import` (the Include statement). -/
def parse_includeFile (ts : List Token) : Except Err (Stmt × List Token) :=
  match ts with
  | [] => .error .attrError
  | _ :: rest =>
    match rest with
    | [] => .error .attrError
    | t :: rest2 =>
      if t.type = "STRING" then .ok (.includeFile t.value, rest2)
      else .error .syntaxError

/-- `parse_runasfile`. -/
def parse_runasfile (ts : List Token) : Except Err (Stmt × List Token) :=
  match ts with
  | [] => .error .attrError
  | _ :: rest =>
    match rest with
    | [] => .error .attrError
    | t :: rest2 =>
      if t.type = "STRING" then .ok (.runAsFile t.value, rest2)
      else .error .syntaxError

/-- `parse_statement`: dispatch on the current token's kind; any
unrecognised kind falls through to assignment parsing. -/
def parse_statement (fuel : Nat) (ts : List Token) : Except Err (Stmt × List Token) :=
  match ts with
  | [] => .error .attrError
  | t :: _ =>
    if t.type = "PRINT" then parse_print fuel ts
    else if t.type = "MAKETABLE" then parse_maketable ts
    else if t.type = "EDITROW" then parse_editrow fuel ts
    else if t.type = "EDITCELL" then parse_editcell fuel ts
    else if t.type = "QUERY" then parse_query fuel ts
    else if t.type = "EXPORTCSV" then parse_exportcsv ts
    else if t.type = "IMPORT_CSV" then parse_importcsv ts
    else if t.type = "IMPORT" then parse_includeFile ts
    else if t.type = "RUNASFILE" then parse_runasfile ts
    else parse_assignment fuel ts

/-- `parse_program`: statements until the token stream is exhausted. -/
def parseProgramGo : Nat → List Token → Except Err (List Stmt)
  | _, [] => .ok []
  | 0, _ :: _ => .error .outOfFuel
  | fuel+1, ts =>
    match parse_statement fuel ts with
    | .error e => .error e
    | .ok (s, ts1) =>
      match parseProgramGo fuel ts1 with
      | .error e => .error e
      | .ok ss => .ok (s :: ss)

/-- `Parser(tokens).parse()`.  Each statement and each expression layer
consumes at least one token, so the chosen fuel is never exhausted on the
paths the source can take. -/
def parseProgram (ts : List Token) : Except Err (List Stmt) :=
  parseProgramGo (4 * ts.length + 16) ts

/-! ## Evaluator (`Interpreter`)

`self.vars` is a Python dict from names to values; table values are
references to mutable dicts.  The embedding splits this into an association
list `Env` of name-to-`EValue` bindings (insertion ordered, unique keys, as
a Python dict) and a `heap : List Table` addressed by allocation order.
`dict.copy()` used by `visit_QueryNode` and `visit_RunAsFileNode` copies only
the bindings, never the tables behind the references. -/

/-- The variable environment: insertion-ordered bindings with unique keys. -/
abbrev Env := List (String × EValue)

/-- `self.vars.get(name)`. -/
def Env.get : Env → String → Option EValue
  | [], _ => Option.none
  | (k, v) :: rest, n => if k = n then some v else Env.get rest n

/-- `self.vars[name] = value`: replace an existing binding in place, else
append a new one (Python dict update semantics). -/
def Env.insert : Env → String → EValue → Env
  | [], n, v => [(n, v)]
  | (k, w) :: rest, n, v =>
    if k = n then (k, v) :: rest else (k, w) :: Env.insert rest n v

/-- `self.vars.update(context)`. -/
def Env.updateAll (e : Env) (ps : List (String × EValue)) : Env :=
  ps.foldl (fun acc p => Env.insert acc p.1 p.2) e

/-- Python truthiness of the values the interpreter can hold; a table dict
always has the two keys `columns`/`data`, hence is always truthy. -/
def pyTruthy : EValue → Bool
  | .int n => decide (n ≠ 0)
  | .str s => decide (s ≠ "")
  | .none => false
  | .ref _ => true

/-- A value that is not a table reference (an `int`, `str` or `None`). -/
def isScalar : EValue → Bool
  | .ref _ => false
  | _ => true

/-- Python `==` restricted to non-reference values: equal kinds compare
structurally, unlike kinds compare unequal. -/
def scalarEq : EValue → EValue → Bool
  | .int m, .int n => decide (m = n)
  | .str s, .str t => decide (s = t)
  | .none, .none => true
  | _, _ => false

/-- Work items of the deep `==` on values, rows and row lists. -/
inductive EqTask where
  | val (a b : EValue)
  | row (r s : List EValue)
  | rows (d e : List (List EValue))

/-- Python `==` including dict-by-content comparison of tables.  Container
elements use CPython's identity-implies-equality shortcut; the fuel models
the interpreter recursion limit (`RecursionError` on pathologically cyclic
structures). -/
def pyEqGo : Nat → List Table → EqTask → Except Err Bool
  | 0, _, _ => .error .recursionError
  | fuel+1, heap, .val a b =>
    match a, b with
    | .int m, .int n => .ok (decide (m = n))
    | .str s, .str t => .ok (decide (s = t))
    | .none, .none => .ok true
    | .ref x, .ref y =>
      if x = y then .ok true
      else
        match heap.get? x, heap.get? y with
        | some T, some U =>
          if T.columns = U.columns then pyEqGo fuel heap (.rows T.data U.data)
          else .ok false
        | _, _ => .ok false
    | _, _ => .ok false
  | fuel+1, heap, .row r s =>
    match r, s with
    | [], [] => .ok true
    | x :: xs, y :: ys =>
      if x = y then pyEqGo fuel heap (.row xs ys)
      else
        match pyEqGo fuel heap (.val x y) with
        | .error e => .error e
        | .ok true => pyEqGo fuel heap (.row xs ys)
        | .ok false => .ok false
    | _, _ => .ok false
  | fuel+1, heap, .rows d e =>
    match d, e with
    | [], [] => .ok true
    | r :: rs, s :: ss =>
      match pyEqGo fuel heap (.row r s) with
      | .error er => .error er
      | .ok true => pyEqGo fuel heap (.rows rs ss)
      | .ok false => .ok false
    | _, _ => .ok false

/-- Top-level Python `==` between two runtime values. -/
def pyEq (heap : List Table) (a b : EValue) : Except Err Bool :=
  pyEqGo 1000 heap (.val a b)

/-- Lexicographic order on character lists (Python string `<`). -/
def charsLt : List Char → List Char → Bool
  | _, [] => false
  | [], _ :: _ => true
  | x :: xs, y :: ys => if x = y then charsLt xs ys else decide (x < y)

/-- Python string `<`. -/
def strLt (s t : String) : Bool := charsLt s.data t.data

/-- Python ordering comparisons: defined for int-int and str-str pairs,
`TypeError` for every other pair (None, tables, mixed kinds). -/
def pyOrderOp (op : String) (a b : EValue) : Except Err Bool :=
  match a, b with
  | .int m, .int n =>
    .ok (if op = "GREATER" then decide (m > n)
         else if op = "LESS" then decide (m < n)
         else if op = "GREATEREQUAL" then decide (m ≥ n)
         else decide (m ≤ n))
  | .str s, .str t =>
    .ok (if op = "GREATER" then strLt t s
         else if op = "LESS" then strLt s t
         else if op = "GREATEREQUAL" then !(strLt s t)
         else !(strLt t s))
  | _, _ => .error .typeError

/-- `visit_ComparisonOpNode`: a `match` over the six operator kinds; a kind
outside the six falls through (the Python `match` yields `None`, which is
falsy where the result is used). -/
def pyCompareOp (heap : List Table) (op : String) (a b : EValue) : Except Err Bool :=
  if op = "EQUAL" then pyEq heap a b
  else if op = "NOTEQUAL" then
    match pyEq heap a b with
    | .error e => .error e
    | .ok v => .ok (!v)
  else if op = "GREATER" ∨ op = "LESS" ∨ op = "GREATEREQUAL" ∨ op = "LESSEQUAL" then
    pyOrderOp op a b
  else .ok false

/-- String repetition for Python `str * int`. -/
def strRepeat (s : List Char) : Nat → List Char
  | 0 => []
  | k+1 => s ++ strRepeat s k

/-- Python `+` on the interpreter's values. -/
def pyAdd : EValue → EValue → Except Err EValue
  | .int m, .int n => .ok (.int (m + n))
  | .str s, .str t => .ok (.str (s ++ t))
  | _, _ => .error .typeError

/-- Python `-`. -/
def pySub : EValue → EValue → Except Err EValue
  | .int m, .int n => .ok (.int (m - n))
  | _, _ => .error .typeError

/-- Python `*` (including string repetition; a non-positive count yields the
empty string). -/
def pyMul : EValue → EValue → Except Err EValue
  | .int m, .int n => .ok (.int (m * n))
  | .str s, .int n => .ok (.str (String.mk (strRepeat s.data n.toNat)))
  | .int n, .str s => .ok (.str (String.mk (strRepeat s.data n.toNat)))
  | _, _ => .error .typeError

/-- Python `//` (floor division, `ZeroDivisionError` on zero divisor). -/
def pyDiv : EValue → EValue → Except Err EValue
  | .int m, .int n => if n = 0 then .error .zeroDivision else .ok (.int (Int.fdiv m n))
  | _, _ => .error .typeError

/-- `visit_BinaryOpNode`: dispatch on the operator token kind; an
unrecognised kind falls off the end of the `if`-chain and returns `None`. -/
def pyBinop (op : String) (a b : EValue) : Except Err EValue :=
  if op = "PLUS" then pyAdd a b
  else if op = "MINUS" then pySub a b
  else if op = "MULTIPLY" then pyMul a b
  else if op = "DIVIDE" then pyDiv a b
  else .ok .none

/-- Expression evaluation (`visit_NumberNode`, `visit_StringNode`,
`visit_IdentifierNode`, `visit_BinaryOpNode`): pure in the environment and
heap; an unbound identifier yields `None` via `dict.get`. -/
def evalExpr (heap : List Table) (vars : Env) : Expr → Except Err EValue
  | .num n => .ok (.int n)
  | .str s => .ok (.str s)
  | .ident x => .ok ((Env.get vars x).getD .none)
  | .binop l op r =>
    match evalExpr heap vars l with
    | .error e => .error e
    | .ok a =>
      match evalExpr heap vars r with
      | .error e => .error e
      | .ok b => pyBinop op a b

/-- Left-to-right evaluation of an expression list
(`[self.visit(expr) for expr in node.values]`). -/
def evalExprs (heap : List Table) (vars : Env) : List Expr → Except Err (List EValue)
  | [] => .ok []
  | e :: es =>
    match evalExpr heap vars e with
    | .error er => .error er
    | .ok v =>
      match evalExprs heap vars es with
      | .error er => .error er
      | .ok vs => .ok (v :: vs)

/-- `visit_ComparisonOpNode` applied to a condition. -/
def evalCmp (heap : List Table) (vars : Env) (c : Cmp) : Except Err Bool :=
  match evalExpr heap vars c.left with
  | .error e => .error e
  | .ok a =>
    match evalExpr heap vars c.right with
    | .error e => .error e
    | .ok b => pyCompareOp heap c.op a b

/-- One emitted line-group of `print` output, abstracted from its exact
textual rendering. -/
inductive OutEvent where
  | printValue (v : EValue)
  | printTable (name : String) (t : Table)
  | queryResult (name : String) (columns : List String) (rows : List (List EValue))
  | exported (name filename : String) (rowCount : Nat)
  | importedCSV (name : String) (rowCount : Nat)
  | importedTables (filename : String)
deriving DecidableEq, Repr

/-- The interpreter state: variable bindings, table heap, inclusion stack,
current file, the RunAsFile termination flag, and emitted output. -/
structure State where
  vars : Env
  heap : List Table
  callStack : List String
  currentFile : String
  shouldExit : Bool
  output : List OutEvent
deriving DecidableEq, Repr

/-- The file-system collaborators: raw text files for `import`/`runfile`
and decoded CSV records for `importcsv` (CSV mechanics are external to the
core). -/
structure Ctx where
  fs : String → Option String
  csv : String → Option (List (List String))

/-- Result of a statement or program evaluation; a raised exception carries
the state the interpreter object was left in. -/
inductive Outcome where
  | ok (st : State)
  | err (e : Err) (st : State)
deriving DecidableEq, Repr

/-- `os.path.isabs` (POSIX). -/
def isAbsPath (s : String) : Bool :=
  match s.data with
  | '/' :: _ => true
  | _ => false

/-- `os.path.dirname` (POSIX): the text up to the final slash, with
trailing slashes stripped unless the result is all slashes. -/
def pyDirname (s : String) : String :=
  let cs := s.data
  let revAfter := cs.reverse.takeWhile (fun c => c ≠ '/')
  let head := (cs.reverse.drop revAfter.length).reverse
  if head.all (fun c => c = '/') then String.mk head
  else String.mk (head.reverse.dropWhile (fun c => c = '/')).reverse

/-- `os.path.join` (POSIX) for the two-argument case used by the source. -/
def pyJoin (a b : String) : String :=
  if isAbsPath b then b
  else if a = "" then b
  else
    match a.data.getLast? with
    | some '/' => a ++ b
    | _ => a ++ "/" ++ b

/-- Path resolution shared by `visit_ImportNode` and `visit_RunAsFileNode`:
relative paths resolve against the directory of the current file unless
running interactively. -/
def resolvePath (currentFile filename : String) : String :=
  if isAbsPath filename then filename
  else if currentFile = "<interactive>" then filename
  else pyJoin (pyDirname currentFile) filename

/-- Validity of the tail of Python's `int(...)` digit core: digits with
single underscores, each underscore followed by a digit. -/
def validIntCoreGo : List Char → Bool
  | [] => true
  | c :: rest =>
    if c = '_' then
      match rest with
      | d :: _ => d.isDigit && validIntCoreGo rest
      | [] => false
    else c.isDigit && validIntCoreGo rest

/-- Validity of Python's `int(...)` digit core: nonempty, digit-led, single
underscores only between digits. -/
def validIntCore : List Char → Bool
  | [] => false
  | c :: rest => c.isDigit && validIntCoreGo rest

/-- The whitespace `str.strip()` removes before `int` conversion. -/
def pyIntWs (c : Char) : Bool :=
  c == ' ' || c == '\t' || c == '\n' || c == '\r' || c == Char.ofNat 11 || c == Char.ofNat 12

/-- Strip leading and trailing whitespace. -/
def pyStrip (cs : List Char) : List Char :=
  ((cs.dropWhile pyIntWs).reverse.dropWhile pyIntWs).reverse

/-- Numeric value of a digit core, underscores removed. -/
def intCoreVal (cs : List Char) : Int :=
  Int.ofNat (natOfDigits (cs.filter (fun c => c ≠ '_')))

/-- The ASCII integer parse behind `int(str)` (`_PyLong_FromString`):
optional surrounding whitespace, optional single sign, then a digit core
with optional single underscores between digits.  `Option.none` models
`ValueError`. -/
def pyIntParseAscii (cs : List Char) : Option Int :=
  match pyStrip cs with
  | [] => Option.none
  | c :: core =>
    if c = '+' then
      if validIntCore core then some (intCoreVal core) else Option.none
    else if c = '-' then
      if validIntCore core then some (-(intCoreVal core)) else Option.none
    else
      if validIntCore (c :: core) then some (intCoreVal (c :: core)) else Option.none

/-- The non-ASCII Unicode whitespace characters (`str.isspace`). -/
def unicodeSpaces : List Nat :=
  [0x85, 0xA0, 0x1680, 0x2000, 0x2001, 0x2002, 0x2003, 0x2004, 0x2005, 0x2006,
   0x2007, 0x2008, 0x2009, 0x200A, 0x2028, 0x2029, 0x202F, 0x205F, 0x3000]

/-- One character of the preprocessing `int(str)` applies to its argument
(`_PyUnicode_TransformDecimalAndSpaceToASCII`): code points below 127 pass
through unchanged, non-ASCII whitespace becomes a blank, a non-ASCII decimal
digit becomes the ASCII digit of its value, and any other non-ASCII
character becomes `?`, which the ASCII parse then rejects. -/
def pyIntTransformChar (c : Char) : Char :=
  if c.toNat < 127 then c
  else if unicodeSpaces.contains c.toNat then ' '
  else
    match ndNonAsciiVal c.toNat with
    | some v => Char.ofNat (48 + v)
    | Option.none => '?'

/-- The argument preprocessing of `int(str)`. -/
def pyIntTransform (cs : List Char) : List Char :=
  cs.map pyIntTransformChar

/-- Python's built-in `int(str)`: map Unicode whitespace to blanks and
Unicode decimal digits to ASCII digits, then run the ASCII parse. -/
def pyIntParse (s : String) : Option Int :=
  pyIntParseAscii (pyIntTransform s.data)

/-- The per-field coercion of `visit_ImportCSVNode`: `int(val)` under
`try`, keeping the text on `ValueError`. -/
def convertField (s : String) : EValue :=
  match pyIntParse s with
  | some n => .int n
  | Option.none => .str s

/-- The statement filter of `visit_ImportNode`: only `MakeTableNode` and
`EditRowNode` statements of an included file are evaluated. -/
def isTableStmt : Stmt → Bool
  | .makeTable _ _ => true
  | .editRow _ _ => true
  | _ => false

/-- The row scan of `visit_EditRowNode`: replace the first row whose first
field equals the new row's first field, else append; an empty row faults on
`row[0]`. -/
def editRowScan (heap : List Table) (rowId : EValue) (values : List EValue) :
    List (List EValue) → Except Err (List (List EValue))
  | [] => .ok [values]
  | row :: rest =>
    match row with
    | [] => .error .indexError
    | r0 :: _ =>
      match pyEq heap r0 rowId with
      | .error e => .error e
      | .ok true => .ok (values :: rest)
      | .ok false =>
        match editRowScan heap rowId values rest with
        | .error e => .error e
        | .ok d => .ok (row :: d)

/-- The row scan of `visit_EditCellNode`: overwrite one field of the first
key-matching row; no match raises `UnknownRowError`; a row shorter than the
column index faults on the field assignment. -/
def editCellScan (heap : List Table) (rowId newValue : EValue) (colIdx : Nat) :
    List (List EValue) → Except Err (List (List EValue))
  | [] => .error .unknownRow
  | row :: rest =>
    match row with
    | [] => .error .indexError
    | r0 :: _ =>
      match pyEq heap r0 rowId with
      | .error e => .error e
      | .ok true =>
        if colIdx < row.length then .ok (row.set colIdx newValue :: rest)
        else .error .indexError
      | .ok false =>
        match editCellScan heap rowId newValue colIdx rest with
        | .error e => .error e
        | .ok d => .ok (row :: d)

/-- Result of the per-row condition loop of `visit_QueryNode`: the selected
rows or the first evaluation failure, along with the variable bindings as
left by the loop's save/restore discipline. -/
inductive QRes where
  | ok (rows : List (List EValue)) (vars : Env)
  | fail (e : Err) (vars : Env)
deriving DecidableEq, Repr

/-- The bindings a query-loop result leaves behind. -/
def QRes.varsOf : QRes → Env
  | .ok _ v => v
  | .fail _ v => v

/-- The condition loop of `visit_QueryNode`: per row, bind the columns to
the row's fields over a saved copy of the bindings, evaluate the condition,
and restore the saved bindings whatever the outcome (`finally`). -/
def queryLoop (heap : List Table) (columns : List String) (c : Cmp) :
    Env → List (List EValue) → QRes
  | vars, [] => .ok [] vars
  | vars, row :: rest =>
    match evalCmp heap (Env.updateAll vars (columns.zip row)) c with
    | .error e => .fail e vars
    | .ok b =>
      match queryLoop heap columns c vars rest with
      | .ok rs v2 => .ok (if b then row :: rs else rs) v2
      | .fail e v2 => .fail e v2

/-- `Lexer` + `Parser` pipeline on a nested file's text. -/
def lexAndParse (code : String) : Except Err (List Stmt) :=
  match tokenize code with
  | .error e => .error e
  | .ok ts => parseProgram ts

/-- Work items of the interpreter: one statement, a program, or the
table-statements-only body of an included file. -/
inductive Task where
  | stmt (s : Stmt)
  | prog (l : List Stmt)
  | importBody (l : List Stmt)

/-- The tree-walking interpreter (`Interpreter.visit` and the per-node
methods).  Fuel only limits the file-recursion depth and statement count;
`visit_ImportNode` wraps every failure of its body as `importFailed` and
restores the inclusion stack and current file only on success, and
`visit_RunAsFileNode` restores the (shallow-copied) bindings, pops the
stack and sets the termination flag only on success. -/
def exec (ctx : Ctx) : Nat → State → Task → Outcome
  | 0, st, _ => .err .outOfFuel st
  | fuel+1, st, .prog [] => .ok st
  | fuel+1, st, .prog (s :: rest) =>
    match exec ctx fuel st (.stmt s) with
    | .ok st2 => exec ctx fuel st2 (.prog rest)
    | r => r
  | fuel+1, st, .importBody [] => .ok st
  | fuel+1, st, .importBody (s :: rest) =>
    if isTableStmt s then
      match exec ctx fuel st (.stmt s) with
      | .ok st2 => exec ctx fuel st2 (.importBody rest)
      | r => r
    else exec ctx fuel st (.importBody rest)
  | fuel+1, st, .stmt s =>
    match s with
    | .assign name e =>
      match evalExpr st.heap st.vars e with
      | .error er => .err er st
      | .ok v => .ok { st with vars := Env.insert st.vars name v }
    | .printStmt e =>
      match evalExpr st.heap st.vars e with
      | .error er => .err er st
      | .ok v =>
        match v with
        | .ref a =>
          match e with
          | .ident n =>
            match st.heap.get? a with
            | some T => .ok { st with output := st.output ++ [.printTable n T] }
            | Option.none => .err .invalidRef st
          | _ => .err .attrError st
        | _ => .ok { st with output := st.output ++ [.printValue v] }
    | .makeTable name columns =>
      .ok { st with vars := Env.insert st.vars name (.ref st.heap.length)
                    heap := st.heap ++ [{ columns := columns, data := [] }] }
    | .editRow name es =>
      let tv := (Env.get st.vars name).getD .none
      if pyTruthy tv then
        match evalExprs st.heap st.vars es with
        | .error er => .err er st
        | .ok values =>
          match tv with
          | .ref a =>
            match st.heap.get? a with
            | Option.none => .err .invalidRef st
            | some T =>
              if values.length = T.columns.length then
                match values with
                | [] => .err .indexError st
                | v0 :: _ =>
                  match editRowScan st.heap v0 values T.data with
                  | .error er => .err er st
                  | .ok newData =>
                    .ok { st with heap := st.heap.set a { T with data := newData } }
              else .err .arityError st
          | _ => .err .typeError st
      else .err .unknownTable st
    | .editCell name ce ke ve =>
      let tv := (Env.get st.vars name).getD .none
      if pyTruthy tv then
        match evalExpr st.heap st.vars ce with
        | .error er => .err er st
        | .ok col =>
          match evalExpr st.heap st.vars ke with
          | .error er => .err er st
          | .ok key =>
            match evalExpr st.heap st.vars ve with
            | .error er => .err er st
            | .ok nv =>
              match col with
              | .str c =>
                match tv with
                | .ref a =>
                  match st.heap.get? a with
                  | Option.none => .err .invalidRef st
                  | some T =>
                    if c ∈ T.columns then
                      match editCellScan st.heap key nv (T.columns.indexOf c) T.data with
                      | .error er => .err er st
                      | .ok nd =>
                        .ok { st with heap := st.heap.set a { T with data := nd } }
                    else .err .unknownColumn st
                | _ => .err .typeError st
              | _ => .err .typeError st
      else .err .unknownTable st
    | .query name cond =>
      let tv := (Env.get st.vars name).getD .none
      if pyTruthy tv then
        match tv with
        | .ref a =>
          match st.heap.get? a with
          | Option.none => .err .invalidRef st
          | some T =>
            match cond with
            | Option.none =>
              .ok { st with output := st.output ++ [.queryResult name T.columns T.data] }
            | some c =>
              match queryLoop st.heap T.columns c st.vars T.data with
              | .fail er v2 => .err er { st with vars := v2 }
              | .ok rs v2 =>
                .ok { st with vars := v2
                              output := st.output ++ [.queryResult name T.columns rs] }
        | _ => .err .typeError st
      else .err .unknownTable st
    | .exportCSV name filename =>
      let tv := (Env.get st.vars name).getD .none
      if pyTruthy tv then
        match tv with
        | .ref a =>
          match st.heap.get? a with
          | Option.none => .err (.exportFailed .invalidRef) st
          | some T =>
            .ok { st with output := st.output ++ [.exported name filename T.data.length] }
        | _ => .err (.exportFailed .typeError) st
      else .err .unknownTable st
    | .importCSV filename name =>
      match ctx.csv filename with
      | Option.none => .err .csvNotFound st
      | some [] => .err (.csvImportFailed .stopIteration) st
      | some (columns :: records) =>
        .ok { st with
              vars := Env.insert st.vars name (.ref st.heap.length)
              heap := st.heap ++
                [{ columns := columns, data := records.map (fun r => r.map convertField) }]
              output := st.output ++ [.importedCSV name records.length] }
    | .includeFile filename =>
      let fn := resolvePath st.currentFile filename
      if fn ∈ st.callStack then .err .circularImport st
      else
        match ctx.fs fn with
        | Option.none => .err (.importFailed .fileNotFound) st
        | some code =>
          let stB := { st with callStack := st.callStack ++ [fn], currentFile := fn }
          match lexAndParse code with
          | .error er => .err (.importFailed er) stB
          | .ok prog =>
            match exec ctx fuel stB (.importBody prog) with
            | .err er st2 => .err (.importFailed er) st2
            | .ok st2 =>
              .ok { st2 with callStack := st.callStack
                             currentFile := st.currentFile
                             output := st2.output ++ [.importedTables fn] }
    | .runAsFile filename =>
      let fn := resolvePath st.currentFile filename
      if fn ∈ st.callStack then .err .circularExecution st
      else
        match ctx.fs fn with
        | Option.none => .err (.runAsFileFailed .fileNotFound) st
        | some code =>
          let stB := { st with callStack := st.callStack ++ [fn], currentFile := fn }
          match lexAndParse code with
          | .error er => .err (.runAsFileFailed er) stB
          | .ok prog =>
            match exec ctx fuel stB (.prog prog) with
            | .err er st2 => .err (.runAsFileFailed er) st2
            | .ok st2 =>
              .ok { st2 with vars := st.vars
                             callStack := st2.callStack.dropLast
                             currentFile := st.currentFile
                             shouldExit := true }

/-- Evaluation of a single statement. -/
def execStmt (ctx : Ctx) (fuel : Nat) (st : State) (s : Stmt) : Outcome :=
  exec ctx fuel st (.stmt s)

/-- Evaluation of a statement sequence (`visit_ProgramNode`). -/
def execProgram (ctx : Ctx) (fuel : Nat) (st : State) (l : List Stmt) : Outcome :=
  exec ctx fuel st (.prog l)

/-- `Interpreter.run`: scan, parse, evaluate. -/
def run (ctx : Ctx) (fuel : Nat) (st : State) (code : String) : Outcome :=
  match lexAndParse code with
  | .error e => .err e st
  | .ok prog => exec ctx fuel st (.prog prog)

/-! ## Specification-side definitions

`editRowSpec` is written from the specification's words ("replace that row
in place if found, otherwise append as a new row at the end") to be compared
with the row scan translated from the source. -/

/-- A row's first field equals the new values' first field (key match by
scalar value equality). -/
def keyMatch (values : List EValue) (row : List EValue) : Bool :=
  scalarEq (row.headD .none) (values.headD .none)

/-- Replace the first row whose key (first field) matches the new row's key,
else append the new row at the end; all other rows keep content and
position. -/
def editRowSpec (values : List EValue) : List (List EValue) → List (List EValue)
  | [] => [values]
  | row :: rest =>
    if keyMatch values row then values :: rest
    else row :: editRowSpec values rest

/-- The statement-leading keyword token kinds recognised by
`parse_statement`. -/
def stmtKeywords : List String :=
  ["PRINT", "MAKETABLE", "EDITROW", "EDITCELL", "QUERY",
   "EXPORTCSV", "IMPORT_CSV", "IMPORT", "RUNASFILE"]

/-- The keyword spellings reserved by the scanner. -/
def keywordSpellings : List String :=
  ["print", "maketable", "editrow", "editcell", "query",
   "exportcsv", "importcsv", "import", "as", "runfile"]

/-- The keyword spellings as character lists. -/
def keywordCharLists : List (List Char) :=
  keywordSpellings.map String.data

/-- The language's own integer-literal shape (the scanner's `\d+`): a
nonempty unsigned digit sequence. -/
def isIntLiteral (s : String) : Bool :=
  decide (s.data ≠ []) && s.data.all Char.isDigit

/-- Declarative shape of the ASCII texts the core of `int(...)` accepts:
optional whitespace on both sides, an optional single sign, and a digit
core that is an underscore-separated concatenation of nonempty digit
groups. -/
def pyIntShapeAscii (cs : List Char) : Prop :=
  ∃ (w1 w2 sg : List Char) (groups : List (List Char)),
    cs = w1 ++ sg ++ (List.intercalate ['_'] groups) ++ w2 ∧
    w1.all pyIntWs ∧ w2.all pyIntWs ∧
    (sg = [] ∨ sg = ['+'] ∨ sg = ['-']) ∧
    groups ≠ [] ∧ (∀ g ∈ groups, g ≠ [] ∧ g.all Char.isDigit)

/-- Declarative shape of the strings Python's `int(...)` accepts: after the
argument preprocessing (Unicode whitespace to blanks, Unicode decimal digits
to ASCII digits), optional whitespace on both sides, an optional single
sign, and a digit core with single underscores between digit groups. -/
def pyIntShape (s : String) : Prop :=
  pyIntShapeAscii (pyIntTransform s.data)

/-! ## Concrete instances used by counterexamples and witnesses -/

/-- A file system with a file that edits a caller table, a file that fails
after a partial run, and a file that imports itself. -/
def fsDemo : String → Option String := fun s =>
  if s = "f.tadb" then some "editrow T [1, \"Bea\"]"
  else if s = "g.tadb" then some "x = 5\neditrow y [1]"
  else if s = "A" then some "maketable T [id]\nimport \"A\""
  else Option.none

/-- Evaluation context with `fsDemo` and no CSV files. -/
def ctxDemo : Ctx := { fs := fsDemo, csv := fun _ => Option.none }

/-- A one-row table `T` keyed `1`. -/
def tableDemo : Table := { columns := ["id", "name"], data := [[.int 1, .str "Ann"]] }

/-- A caller state owning `tableDemo` under the name `T`. -/
def stDemo : State :=
  { vars := [("T", .ref 0)], heap := [tableDemo], callStack := [],
    currentFile := "<interactive>", shouldExit := false, output := [] }

/-- The state `runfile "f.tadb"` leaves on its success path: bindings
restored, termination flag set, but the table behind `T` mutated in place. -/
def stDemoAfterRun : State :=
  { vars := [("T", .ref 0)],
    heap := [{ columns := ["id", "name"], data := [[.int 1, .str "Bea"]] }],
    callStack := [], currentFile := "<interactive>", shouldExit := true,
    output := [] }

/-- The state `runfile "g.tadb"` leaves on its failure path: the nested
program's binding of `x` kept, inclusion stack and current file not
restored. -/
def stDemoAfterFail : State :=
  { vars := [("T", .ref 0), ("x", .int 5)], heap := [tableDemo],
    callStack := ["g.tadb"], currentFile := "g.tadb", shouldExit := false,
    output := [] }

/-- The empty interactive state. -/
def stEmpty : State :=
  { vars := [], heap := [], callStack := [], currentFile := "<interactive>",
    shouldExit := false, output := [] }

/-- A state owning an empty zero-column table `Z`. -/
def stZero : State :=
  { vars := [("Z", .ref 0)], heap := [{ columns := [], data := [] }],
    callStack := [], currentFile := "<interactive>", shouldExit := false,
    output := [] }

/-- The state a top-level `import "A"` of the self-importing file `A`
leaves: the file's table statement applied, its nested `import` skipped, no
error raised. -/
def stAfterSelfImport : State :=
  { vars := [("T", .ref 0)], heap := [{ columns := ["id"], data := [] }],
    callStack := [], currentFile := "<interactive>", shouldExit := false,
    output := [.importedTables "A"] }

/-- An interactive state whose inclusion stack already holds `"B"`. -/
def stOnStack : State :=
  { vars := [], heap := [], callStack := ["B"], currentFile := "<interactive>",
    shouldExit := false, output := [] }

/-- A state owning a one-column table `D` with two identical rows keyed `1`
(such tables are constructible through `importcsv`). -/
def stDup : State :=
  { vars := [("D", .ref 0)],
    heap := [{ columns := ["id"], data := [[.int 1], [.int 1]] }],
    callStack := [], currentFile := "<interactive>", shouldExit := false,
    output := [] }

/-! ## Theorems -/

/-- C1: `runfile` is claimed to leave the caller's environment exactly as
before the call, on success and on failure alike, with only the
should-terminate flag observable.  The code refutes this: on the success
path the shallow `dict.copy()` restores only the name bindings, so an
in-place `editrow` of a pre-existing table leaks to the caller; and on the
failure path nothing is restored at all (new bindings, the pushed inclusion
stack entry and the redirected current file all remain). -/
theorem c1_runasfile_environment_leaks :
    execStmt ctxDemo 8 stDemo (.runAsFile "f.tadb") = .ok stDemoAfterRun ∧
    stDemoAfterRun.vars = stDemo.vars ∧
    stDemoAfterRun.shouldExit = true ∧
    stDemoAfterRun.heap ≠ stDemo.heap ∧
    execStmt ctxDemo 8 stDemo (.runAsFile "g.tadb") =
      .err (.runAsFileFailed .unknownTable) stDemoAfterFail ∧
    stDemoAfterFail.vars ≠ stDemo.vars ∧
    stDemoAfterFail.callStack ≠ stDemo.callStack := by
  refine ⟨by decide, by decide, by decide, by decide, by decide, by decide, by decide⟩

/-- C10: on a zero-column table, `editrow NAME []` passes the arity check
(zero values against zero columns) and then faults reading `values[0]`, so
the evaluation can never reach the replace-or-append behaviour. -/
theorem c10_editrow_zero_columns (ctx : Ctx) (fuel : Nat) (st : State)
    (name : String) (a : Nat) (T : Table)
    (hname : Env.get st.vars name = some (.ref a))
    (hheap : st.heap[a]? = some T)
    (hcols : T.columns = []) :
    execStmt ctx (fuel+1) st (.editRow name []) = .err .indexError st := by
  unfold execStmt
  simp [exec, hname, hheap, hcols, pyTruthy, evalExprs, Option.getD]

/-- Witness for C10 at the concrete zero-column table `Z`. -/
theorem c10_editrow_zero_columns_witness :
    execStmt ctxDemo 1 stZero (.editRow "Z" []) = .err .indexError stZero :=
  c10_editrow_zero_columns ctxDemo 0 stZero "Z" 0
    { columns := [], data := [] } (by decide) (by decide) (by decide)

/-- Python `==` on two non-reference values is total and agrees with
`scalarEq`. -/
theorem pyEq_scalar (heap : List Table) (a b : EValue)
    (ha : isScalar a = true) (hb : isScalar b = true) :
    pyEq heap a b = .ok (scalarEq a b) := by
  cases a <;> cases b <;> first
    | rfl
    | simp [isScalar] at ha hb

/-- The `visit_EditCellNode` row scan raises `UnknownRowError` when no
row's first field equals the key. -/
theorem editCellScan_nomatch (heap : List Table) (key nv : EValue) (idx : Nat)
    (data : List (List EValue)) (hk : isScalar key = true)
    (hrows : ∀ r ∈ data, r ≠ [] ∧ isScalar (r.headD .none) = true ∧
      scalarEq (r.headD .none) key = false) :
    editCellScan heap key nv idx data = .error .unknownRow := by
  induction data with
  | nil => rfl
  | cons row rest ih =>
    obtain ⟨hne, hs, hm⟩ := hrows row (by simp)
    cases row with
    | nil => exact absurd rfl hne
    | cons r0 rtl =>
      simp only [List.headD_cons] at hs hm
      simp [editCellScan, pyEq_scalar heap r0 key hs hk, hm,
        ih (fun r hr => hrows r (by simp [hr]))]

/-- C6: when the column exists but no row's first field equals the key,
`editcell` always fails with `UnknownRowError` and leaves the state (in
particular the queried table) completely unmodified — it never inserts. -/
theorem c6_editcell_no_match_never_inserts (ctx : Ctx) (fuel : Nat) (st : State)
    (name : String) (ce ke ve : Expr) (a : Nat) (T : Table) (c : String)
    (key nv : EValue)
    (hname : Env.get st.vars name = some (.ref a))
    (hheap : st.heap[a]? = some T)
    (hce : evalExpr st.heap st.vars ce = .ok (.str c))
    (hke : evalExpr st.heap st.vars ke = .ok key)
    (hve : evalExpr st.heap st.vars ve = .ok nv)
    (hc : c ∈ T.columns)
    (hk : isScalar key = true)
    (hrows : ∀ r ∈ T.data, r ≠ [] ∧ isScalar (r.headD .none) = true ∧
      scalarEq (r.headD .none) key = false) :
    execStmt ctx (fuel+1) st (.editCell name ce ke ve) = .err .unknownRow st := by
  unfold execStmt
  simp [exec, hname, hce, hke, hve, hheap, hc, pyTruthy, Option.getD,
    editCellScan_nomatch st.heap key nv (T.columns.indexOf c) T.data hk hrows]

/-- Witness for C6: `editcell T ["name", 999, "x"]` on a table with no row
keyed `999`. -/
theorem c6_editcell_no_match_never_inserts_witness :
    execStmt ctxDemo 1 stDemo (.editCell "T" (.str "name") (.num 999) (.str "x")) =
      .err .unknownRow stDemo :=
  c6_editcell_no_match_never_inserts ctxDemo 0 stDemo "T"
    (.str "name") (.num 999) (.str "x") 0 tableDemo "name" (.int 999) (.str "x")
    (by decide) (by decide) (by rfl) (by rfl) (by rfl) (by decide)
    (by decide) (by decide)

/-- The query loop's save/restore discipline: whatever the outcome, the
bindings it hands back are the ones it was given. -/
theorem queryLoop_varsOf (heap : List Table) (cols : List String) (c : Cmp)
    (rows : List (List EValue)) (vars : Env) :
    (queryLoop heap cols c vars rows).varsOf = vars := by
  induction rows with
  | nil => rfl
  | cons row rest ih =>
    simp only [queryLoop]
    cases evalCmp heap (Env.updateAll vars (cols.zip row)) c with
    | error e => rfl
    | ok b =>
      simp only
      cases h : queryLoop heap cols c vars rest with
      | ok rs v2 => simpa [h, QRes.varsOf] using ih
      | fail e v2 => simpa [h, QRes.varsOf] using ih

/-- Shape of a conditioned query's outcome: it either fails leaving the
state untouched, or succeeds having only appended one output event. -/
theorem exec_query_some_shape (ctx : Ctx) (fuel : Nat) (st : State)
    (name : String) (c : Cmp) :
    (∃ e, execStmt ctx fuel st (.query name (some c)) = .err e st) ∨
    (∃ ev, execStmt ctx fuel st (.query name (some c)) =
      .ok { st with output := st.output ++ [ev] }) := by
  cases fuel with
  | zero => exact Or.inl ⟨.outOfFuel, rfl⟩
  | succ n =>
    unfold execStmt exec
    simp only
    cases hvv : (Env.get st.vars name).getD EValue.none with
    | int m =>
      cases htr : pyTruthy (EValue.int m) <;> simp [htr]
    | str s =>
      cases htr : pyTruthy (EValue.str s) <;> simp [htr]
    | none => simp [pyTruthy]
    | ref a =>
      simp only [pyTruthy, if_true]
      cases hh : st.heap.get? a with
      | none => exact Or.inl ⟨.invalidRef, rfl⟩
      | some T =>
        simp only
        cases hq : queryLoop st.heap T.columns c st.vars T.data with
        | fail e v2 =>
          have hv := queryLoop_varsOf st.heap T.columns c T.data st.vars
          rw [hq] at hv
          simp only [QRes.varsOf] at hv
          exact Or.inl ⟨e, by rw [hv]⟩
        | ok rs v2 =>
          have hv := queryLoop_varsOf st.heap T.columns c T.data st.vars
          rw [hq] at hv
          simp only [QRes.varsOf] at hv
          exact Or.inr ⟨.queryResult name T.columns rs, by rw [hv]⟩

/-- C4: a query with a condition — whether it completes or aborts on a row
where the predicate faults — leaves the variable bindings and the heap
exactly as before it ran, so every identifier named like a column resolves
to its pre-query value (and stays unbound if it was unbound). -/
theorem c4_query_restores_environment (ctx : Ctx) (fuel : Nat) (st : State)
    (name : String) (c : Cmp) :
    (∀ st2, execStmt ctx fuel st (.query name (some c)) = .ok st2 →
      st2.vars = st.vars ∧ st2.heap = st.heap ∧
      ∀ x, Env.get st2.vars x = Env.get st.vars x) ∧
    (∀ e st2, execStmt ctx fuel st (.query name (some c)) = .err e st2 →
      st2 = st) := by
  rcases exec_query_some_shape ctx fuel st name c with ⟨e, he⟩ | ⟨ev, hev⟩
  · constructor
    · intro st2 h
      rw [he] at h
      exact absurd h (by simp)
    · intro e2 st2 h
      rw [he] at h
      cases h
      rfl
  · constructor
    · intro st2 h
      rw [hev] at h
      cases h
      exact ⟨rfl, rfl, fun _ => rfl⟩
    · intro e2 st2 h
      rw [hev] at h
      exact absurd h (by simp)

/-- C5 counterexample: the claim quantifies over every table whose column
count matches the value list.  At a zero-column table the matching empty
value list does not get appended — evaluation faults on `values[0]` — and
at a table already holding duplicate rows keyed `1` (constructible via
`importcsv`), `editrow D [1]` evaluated twice leaves the row `[1]` present
twice, not exactly once. -/
theorem c5_editrow_claim_counterexample :
    execStmt ctxDemo 1 stZero (.editRow "Z" []) = .err .indexError stZero ∧
    execStmt ctxDemo 1 stDup (.editRow "D" [.num 1]) = .ok stDup ∧
    ((stDup.heap.headD { columns := [], data := [] }).data.countP
      (fun r => decide (r = [EValue.int 1]))) = 2 := by
  refine ⟨by decide, by decide, by decide⟩

/-- A scalar value equals itself under Python `==`. -/
theorem scalarEq_refl (v : EValue) (hv : isScalar v = true) :
    scalarEq v v = true := by
  cases v <;> simp_all [scalarEq, isScalar]

/-- The `visit_EditRowNode` row scan computes exactly the specification's
replace-first-match-else-append function when keys and row heads are
scalars. -/
theorem editRowScan_eq_spec (heap : List Table) (values : List EValue)
    (data : List (List EValue))
    (hv : isScalar (values.headD .none) = true)
    (hrows : ∀ r ∈ data, r ≠ [] ∧ isScalar (r.headD .none) = true) :
    editRowScan heap (values.headD .none) values data =
      .ok (editRowSpec values data) := by
  induction data with
  | nil => rfl
  | cons row rest ih =>
    obtain ⟨hne, hs⟩ := hrows row (by simp)
    cases row with
    | nil => exact absurd rfl hne
    | cons r0 rtl =>
      simp only [List.headD_cons] at hs
      have heq := pyEq_scalar heap r0 (values.headD .none) hs hv
      have hkm : keyMatch values (r0 :: rtl) = scalarEq r0 (values.headD .none) := by
        simp only [keyMatch, List.headD_cons]
      have ih2 := ih (fun r hr => hrows r (by simp [hr]))
      cases hm : scalarEq r0 (values.headD EValue.none) with
      | true =>
        rw [hm] at heq hkm
        simp only [editRowScan, editRowSpec, heq, hkm, if_true]
      | false =>
        rw [hm] at heq hkm
        simp only [editRowScan, editRowSpec, heq, hkm, Bool.false_eq_true, if_false, ih2]

/-- The specification function is idempotent. -/
theorem editRowSpec_idem (values : List EValue) (data : List (List EValue))
    (hself : keyMatch values values = true) :
    editRowSpec values (editRowSpec values data) = editRowSpec values data := by
  induction data with
  | nil => simp only [editRowSpec, hself, if_true]
  | cons row rest ih =>
    cases hm : keyMatch values row with
    | true => simp only [editRowSpec, hm, if_true, hself]
    | false => simp only [editRowSpec, hm, Bool.false_eq_true, if_false, ih]

/-- After replace-or-append, the new row is present exactly once, provided
at most one pre-existing row carried its key. -/
theorem editRowSpec_count (values : List EValue) (data : List (List EValue))
    (hself : keyMatch values values = true)
    (hle : data.countP (keyMatch values) ≤ 1) :
    (editRowSpec values data).countP (fun r => decide (r = values)) = 1 := by
  induction data with
  | nil => simp [editRowSpec]
  | cons row rest ih =>
    cases hm : keyMatch values row with
    | true =>
      have hrest : rest.countP (keyMatch values) = 0 := by
        rw [List.countP_cons_of_pos _ _ hm] at hle
        omega
      have hnone : ∀ r ∈ rest, ¬ (decide (r = values) = true) := by
        intro r hr hc
        have hrv : r = values := of_decide_eq_true hc
        subst hrv
        exact (List.countP_eq_zero.mp hrest) r hr hself
      simp only [editRowSpec, hm, if_true]
      rw [List.countP_cons_of_pos _ _ (by simp), List.countP_eq_zero.mpr hnone]
    | false =>
      have hrv : ¬ (row = values) := by
        intro hr
        rw [hr, hself] at hm
        cases hm
      simp only [editRowSpec, hm, Bool.false_eq_true, if_false]
      rw [List.countP_cons_of_neg _ _ (by simp [hrv])]
      apply ih
      rwa [List.countP_cons_of_neg _ _ (by simp [hm])] at hle

/-- C5 (amended): for a table with at least one column, `editrow` with a
matching-arity scalar value list computes the specification's
replace-first-key-match-else-append on the table's rows (all other rows
keeping content and position); the operation is idempotent, and the new row
ends up present exactly once whenever at most one pre-existing row carried
its key. -/
theorem c5_editrow_replace_or_append (ctx : Ctx) (fuel : Nat) (st : State)
    (name : String) (es : List Expr) (values : List EValue) (a : Nat) (T : Table)
    (hname : Env.get st.vars name = some (.ref a))
    (hheap : st.heap[a]? = some T)
    (hvals : evalExprs st.heap st.vars es = .ok values)
    (harity : values.length = T.columns.length)
    (hpos : 0 < T.columns.length)
    (hscal : ∀ v ∈ values, isScalar v = true)
    (hinv : ∀ r ∈ T.data, r.length = T.columns.length)
    (hrscal : ∀ r ∈ T.data, ∀ x ∈ r, isScalar x = true) :
    execStmt ctx (fuel+1) st (.editRow name es) =
      .ok { st with heap := st.heap.set a { T with data := editRowSpec values T.data } } ∧
    editRowSpec values (editRowSpec values T.data) = editRowSpec values T.data ∧
    (T.data.countP (keyMatch values) ≤ 1 →
      (editRowSpec values T.data).countP (fun r => decide (r = values)) = 1) := by
  obtain ⟨v0, vs, rfl⟩ : ∃ v0 vs, values = v0 :: vs := by
    cases values with
    | nil => rw [← harity] at hpos; exact absurd hpos (by simp)
    | cons v0 vs => exact ⟨v0, vs, rfl⟩
  have hv0 : isScalar ((v0 :: vs).headD .none) = true := by
    simpa using hscal v0 (by simp)
  have hself : keyMatch (v0 :: vs) (v0 :: vs) = true := by
    simp only [keyMatch, List.headD_cons]
    exact scalarEq_refl v0 (by simpa using hv0)
  have hrows : ∀ r ∈ T.data, r ≠ [] ∧ isScalar (r.headD .none) = true := by
    intro r hr
    cases r with
    | nil =>
      have := hinv [] hr
      simp at this
      omega
    | cons x xs =>
      exact ⟨by simp, by simpa using hrscal (x :: xs) hr x (by simp)⟩
  have hscan := editRowScan_eq_spec st.heap (v0 :: vs) T.data hv0 hrows
  simp only [List.headD_cons] at hscan
  refine ⟨?_, editRowSpec_idem _ _ hself, editRowSpec_count _ _ hself⟩
  unfold execStmt
  simp [exec, hname, Option.getD, pyTruthy, hvals, hheap, harity, hscan]

/-- Witness for C5 (amended): replacing the row keyed `1` in the demo
table. -/
theorem c5_editrow_replace_or_append_witness :
    execStmt ctxDemo 1 stDemo (.editRow "T" [.num 1, .str "Bea"]) =
      .ok { stDemo with
            heap := [{ columns := ["id", "name"],
                       data := [[.int 1, .str "Bea"]] }] } := by
  have h := (c5_editrow_replace_or_append ctxDemo 0 stDemo "T"
    [.num 1, .str "Bea"] [.int 1, .str "Bea"] 0 tableDemo
    (by decide) (by decide) (by rfl) (by decide) (by decide) (by decide)
    (by decide) (by decide)).1
  rw [h]
  rfl

/-- Statement dispatch falls through to assignment parsing whenever the
leading token's kind is not a recognised statement keyword. -/
theorem parse_statement_fallthrough (fuel : Nat) (t : Token) (ts : List Token)
    (h : t.type ∉ stmtKeywords) :
    parse_statement fuel (t :: ts) = parse_assignment fuel (t :: ts) := by
  simp only [stmtKeywords, List.mem_cons, List.not_mem_nil, or_false, not_or] at h
  obtain ⟨h1, h2, h3, h4, h5, h6, h7, h8, h9⟩ := h
  simp [parse_statement, h1, h2, h3, h4, h5, h6, h7, h8, h9]

/-- C2 counterexample: the claim says assignment-fallthrough parsing fails
with a syntax error whenever the first token is not an identifier, for
example a number literal.  But `parse_assignment` never checks the leading
token's kind: the statement `3 = 5` parses successfully into an assignment
whose target name is the number's text. -/
theorem c2_number_assignment_parses :
    parse_statement 9
      [{ type := "NUMBER", value := "3", line := 1, column := 1 },
       { type := "ASSIGN", value := "=", line := 1, column := 3 },
       { type := "NUMBER", value := "5", line := 1, column := 5 }] =
      .ok (.assign "3" (.num 5), []) := by
  rfl

/-- C2 (amended): with no recognised statement keyword leading, parsing
falls through to assignment parsing, which fails with a syntax error
exactly when the input ends after the first token or the second token is
not the assignment marker; the first token's kind is never checked — its
text becomes the assignment target. -/
theorem c2_fallthrough_assignment (fuel : Nat) (t : Token) :
    (∀ u rest, t.type ∉ stmtKeywords →
      parse_statement fuel (t :: u :: rest) = parse_assignment fuel (t :: u :: rest)) ∧
    (t.type ∉ stmtKeywords → parse_statement fuel [t] = .error .syntaxError) ∧
    (∀ u rest, t.type ∉ stmtKeywords → u.type ≠ "ASSIGN" →
      parse_statement fuel (t :: u :: rest) = .error .syntaxError) ∧
    (∀ u rest e ts2, t.type ∉ stmtKeywords → u.type = "ASSIGN" →
      parse_expression fuel rest = .ok (e, ts2) →
      parse_statement fuel (t :: u :: rest) = .ok (.assign t.value e, ts2)) := by
  refine ⟨?_, ?_, ?_, ?_⟩
  · intro u rest h
    exact parse_statement_fallthrough fuel t (u :: rest) h
  · intro h
    rw [parse_statement_fallthrough fuel t [] h]
    rfl
  · intro u rest h hu
    rw [parse_statement_fallthrough fuel t (u :: rest) h]
    simp [parse_assignment, hu]
  · intro u rest e ts2 h hu he
    rw [parse_statement_fallthrough fuel t (u :: rest) h]
    simp [parse_assignment, hu, he]

/-- Witness for C2 (amended): a comma-led token pair fails with a syntax
error. -/
theorem c2_fallthrough_assignment_witness :
    parse_statement 5
      [{ type := "COMMA", value := ",", line := 1, column := 1 },
       { type := "COMMA", value := ",", line := 1, column := 2 }] =
      .error .syntaxError :=
  (c2_fallthrough_assignment 5
      { type := "COMMA", value := ",", line := 1, column := 1 }).2.2.1
    { type := "COMMA", value := ",", line := 1, column := 2 } []
    (by decide) (by decide)

/-- C9: after the table name of a `query`, an empty remainder yields a
condition-less query node whose evaluation selects every row of the table
in original order; any nonempty remainder is parsed as exactly one
comparison (every successful parse carries a condition), so the tokens of
an intended subsequent statement — keyword-led or an assignment — make the
parse fail with a syntax error. -/
theorem c9_query_optional_condition :
    (∀ (fuel : Nat) (q nameTok : Token), nameTok.type = "IDENTIFIER" →
      parse_query fuel [q, nameTok] = .ok (.query nameTok.value Option.none, [])) ∧
    (∀ (ctx : Ctx) (fuel : Nat) (st : State) (name : String) (a : Nat) (T : Table),
      Env.get st.vars name = some (.ref a) → st.heap[a]? = some T →
      execStmt ctx (fuel+1) st (.query name Option.none) =
        .ok { st with output := st.output ++ [.queryResult name T.columns T.data] }) ∧
    (∀ (fuel : Nat) (q nameTok t : Token) (rest2 : List Token) (s : Stmt)
        (ts3 : List Token), nameTok.type = "IDENTIFIER" →
      parse_query fuel (q :: nameTok :: t :: rest2) = .ok (s, ts3) →
      ∃ c, s = .query nameTok.value (some c)) ∧
    (∀ (fuel : Nat) (q nameTok t : Token) (rest2 : List Token),
      nameTok.type = "IDENTIFIER" → t.type ∈ stmtKeywords →
      parse_query (fuel+3) (q :: nameTok :: t :: rest2) = .error .syntaxError) ∧
    (∀ (fuel : Nat) (q nameTok x u : Token) (rest3 : List Token),
      nameTok.type = "IDENTIFIER" → x.type = "IDENTIFIER" → u.type = "ASSIGN" →
      parse_query (fuel+3) (q :: nameTok :: x :: u :: rest3) = .error .syntaxError) := by
  refine ⟨?_, ?_, ?_, ?_, ?_⟩
  · intro fuel q nameTok hn
    simp [parse_query, hn]
  · intro ctx fuel st name a T hname hheap
    unfold execStmt
    simp [exec, hname, hheap, Option.getD, pyTruthy]
  · intro fuel q nameTok t rest2 s ts3 hn h
    simp only [parse_query, hn, if_true] at h
    cases hc : parse_comparison fuel (t :: rest2) with
    | error e => rw [hc] at h; exact absurd h (by simp)
    | ok p =>
      rw [hc] at h
      refine ⟨p.1, ?_⟩
      cases h
      rfl
  · intro fuel q nameTok t rest2 hn hk
    simp only [stmtKeywords, List.mem_cons, List.not_mem_nil, or_false] at hk
    rcases hk with h | h | h | h | h | h | h | h | h <;>
      simp [parse_query, hn, parse_comparison, parse_expression, parse_term,
        parse_factor, h]
  · intro fuel q nameTok x u rest3 hn hx hu
    simp [parse_query, hn, parse_comparison, parse_expression, parse_term,
      parse_factor, parse_term_loop, parse_expression_loop, hx, hu, validCompOps]

/-- Witness for C9: a condition-less one-statement query parses, a keyword
following the table name fails, and the condition-less evaluation selects
all rows. -/
theorem c9_query_optional_condition_witness :
    parse_query 5
      [{ type := "QUERY", value := "query", line := 1, column := 1 },
       { type := "IDENTIFIER", value := "T", line := 1, column := 7 }] =
      .ok (.query "T" Option.none, []) ∧
    parse_query 5
      [{ type := "QUERY", value := "query", line := 1, column := 1 },
       { type := "IDENTIFIER", value := "T", line := 1, column := 7 },
       { type := "PRINT", value := "print", line := 2, column := 1 },
       { type := "NUMBER", value := "1", line := 2, column := 7 }] =
      .error .syntaxError ∧
    execStmt ctxDemo 1 stDemo (.query "T" Option.none) =
      .ok { stDemo with
            output := [.queryResult "T" ["id", "name"] [[.int 1, .str "Ann"]]] } := by
  refine ⟨?_, ?_, ?_⟩
  · exact c9_query_optional_condition.1 5
      { type := "QUERY", value := "query", line := 1, column := 1 }
      { type := "IDENTIFIER", value := "T", line := 1, column := 7 } (by decide)
  · exact c9_query_optional_condition.2.2.2.1 2
      { type := "QUERY", value := "query", line := 1, column := 1 }
      { type := "IDENTIFIER", value := "T", line := 1, column := 7 }
      { type := "PRINT", value := "print", line := 2, column := 1 }
      [{ type := "NUMBER", value := "1", line := 2, column := 7 }]
      (by decide) (by decide)
  · have h := c9_query_optional_condition.2.1 ctxDemo 0 stDemo "T" 0 tableDemo
      (by decide) (by decide)
    rw [h]
    rfl

/-- C3 counterexample: file `A` imports itself, yet evaluating
`import "A"` from an interactive state succeeds and applies `A`'s table
mutation.  The inclusion stack is only populated by in-progress `import`
and `runfile` frames, and an included file's own `import` statements are
skipped by the statement filter, so the self-inclusion never raises
`CircularImportError`. -/
theorem c3_self_import_succeeds :
    execStmt ctxDemo 5 stEmpty (.includeFile "A") = .ok stAfterSelfImport ∧
    stAfterSelfImport.heap ≠ stEmpty.heap := by
  refine ⟨by decide, by decide⟩

/-- C3 (amended): `CircularImportError` is raised exactly when the resolved
path is already on the active inclusion stack at the moment the `import`
statement is evaluated — and then it is raised before the file is opened,
so before any table mutation; when the path is not on the stack the
statement never raises it (every failure from that point on is wrapped as
an import failure; an included file's nested `import` statements are
skipped, so transitive inclusion chains never recurse). -/
theorem c3_circular_import_guard (ctx : Ctx) (fuel : Nat) (st : State)
    (fn : String) :
    (resolvePath st.currentFile fn ∈ st.callStack →
      execStmt ctx (fuel+1) st (.includeFile fn) = .err .circularImport st) ∧
    (resolvePath st.currentFile fn ∉ st.callStack →
      ∀ e st2, execStmt ctx (fuel+1) st (.includeFile fn) = .err e st2 →
        ∃ e2, e = .importFailed e2) := by
  constructor
  · intro hmem
    unfold execStmt exec
    simp [hmem]
  · intro hmem e st2 h
    unfold execStmt exec at h
    simp only [hmem, if_false] at h
    repeat' split at h
    all_goals first
      | (cases h; exact ⟨_, rfl⟩)
      | (exact absurd h (by simp))

/-- Witness for C3 (amended): importing `"B"` while `"B"` is on the
inclusion stack raises the circular-import error with the state
untouched. -/
theorem c3_circular_import_guard_witness :
    execStmt ctxDemo 1 stOnStack (.includeFile "B") = .err .circularImport stOnStack :=
  (c3_circular_import_guard ctxDemo 0 stOnStack "B").1 (by decide)

/-- A digit is not `int`-stripped whitespace. -/
theorem pyIntWs_of_digit (c : Char) (h : c.isDigit = true) : pyIntWs c = false := by
  by_contra hc
  rw [Bool.not_eq_false] at hc
  simp only [pyIntWs, Bool.or_eq_true, beq_iff_eq] at hc
  rcases hc with ((((h1 | h1) | h1) | h1) | h1) | h1 <;>
    (subst h1; exact absurd h (by decide))

/-- A digit is not `'+'`. -/
theorem digit_ne_plus (c : Char) (h : c.isDigit = true) : ¬ (c = '+') := by
  intro he
  subst he
  exact absurd h (by decide)

/-- A digit is not `'-'`. -/
theorem digit_ne_minus (c : Char) (h : c.isDigit = true) : ¬ (c = '-') := by
  intro he
  subst he
  exact absurd h (by decide)

/-- A digit is not `'_'`. -/
theorem digit_ne_underscore (c : Char) (h : c.isDigit = true) : ¬ (c = '_') := by
  intro he
  subst he
  exact absurd h (by decide)

/-- Dropping whitespace passes over an all-whitespace prefix. -/
theorem dropWhile_append_ws (w l : List Char) (hw : ∀ c ∈ w, pyIntWs c = true) :
    (w ++ l).dropWhile pyIntWs = l.dropWhile pyIntWs := by
  induction w with
  | nil => rfl
  | cons a t ih =>
    simp only [List.cons_append, List.dropWhile_cons, hw a (by simp), if_true]
    exact ih (fun c hc => hw c (by simp [hc]))

/-- Dropping whitespace stops at a non-whitespace head. -/
theorem dropWhile_head_false (c : Char) (l : List Char) (h : pyIntWs c = false) :
    (c :: l).dropWhile pyIntWs = c :: l := by
  simp [List.dropWhile_cons, h]

/-- Dropping whitespace over an all-non-whitespace list is the identity. -/
theorem dropWhile_all_false (l : List Char) (h : ∀ c ∈ l, pyIntWs c = false) :
    l.dropWhile pyIntWs = l := by
  induction l with
  | nil => rfl
  | cons a t ih =>
    simp only [List.dropWhile_cons, h a (by simp), Bool.false_eq_true, if_false]

/-- `str.strip()` splits the text into whitespace, core, whitespace. -/
theorem pyStrip_decomp (cs : List Char) :
    ∃ w1 w2, cs = w1 ++ pyStrip cs ++ w2 ∧
      (∀ c ∈ w1, pyIntWs c = true) ∧ (∀ c ∈ w2, pyIntWs c = true) := by
  refine ⟨cs.takeWhile pyIntWs,
    ((cs.dropWhile pyIntWs).reverse.takeWhile pyIntWs).reverse, ?_, ?_, ?_⟩
  · have key : cs.dropWhile pyIntWs =
        pyStrip cs ++ ((cs.dropWhile pyIntWs).reverse.takeWhile pyIntWs).reverse := by
      unfold pyStrip
      calc cs.dropWhile pyIntWs
          = ((cs.dropWhile pyIntWs).reverse).reverse := by rw [List.reverse_reverse]
        _ = ((cs.dropWhile pyIntWs).reverse.takeWhile pyIntWs ++
              (cs.dropWhile pyIntWs).reverse.dropWhile pyIntWs).reverse := by
            rw [List.takeWhile_append_dropWhile]
        _ = ((cs.dropWhile pyIntWs).reverse.dropWhile pyIntWs).reverse ++
              ((cs.dropWhile pyIntWs).reverse.takeWhile pyIntWs).reverse := by
            rw [List.reverse_append]
    calc cs = cs.takeWhile pyIntWs ++ cs.dropWhile pyIntWs := by
          rw [List.takeWhile_append_dropWhile]
      _ = cs.takeWhile pyIntWs ++ (pyStrip cs ++
            ((cs.dropWhile pyIntWs).reverse.takeWhile pyIntWs).reverse) := by
          conv_lhs => rw [key]
      _ = cs.takeWhile pyIntWs ++ pyStrip cs ++
            ((cs.dropWhile pyIntWs).reverse.takeWhile pyIntWs).reverse := by
          rw [List.append_assoc]
  · exact fun c hc => List.mem_takeWhile_imp hc
  · intro c hc
    rw [List.mem_reverse] at hc
    exact List.mem_takeWhile_imp hc

/-- `str.strip()` of whitespace around an all-non-whitespace nonempty core
recovers exactly the core. -/
theorem pyStrip_sandwich (w1 w2 mid : List Char)
    (h1 : ∀ c ∈ w1, pyIntWs c = true) (h2 : ∀ c ∈ w2, pyIntWs c = true)
    (hmid : ∀ c ∈ mid, pyIntWs c = false) (hne : mid ≠ []) :
    pyStrip (w1 ++ (mid ++ w2)) = mid := by
  obtain ⟨c, mtl, rfl⟩ := List.exists_cons_of_ne_nil hne
  unfold pyStrip
  rw [dropWhile_append_ws w1 _ h1, List.cons_append,
    dropWhile_head_false c _ (hmid c (by simp)), ← List.cons_append,
    List.reverse_append,
    dropWhile_append_ws w2.reverse _ (fun x hx => h2 x (List.mem_reverse.mp hx)),
    dropWhile_all_false _ (fun x hx => hmid x (List.mem_reverse.mp hx)),
    List.reverse_reverse]

/-- `intercalate` over a single chunk. -/
theorem intercalate_single (a : List Char) : List.intercalate ['_'] [a] = a := by
  simp [List.intercalate]

/-- `intercalate` over at least two chunks. -/
theorem intercalate_cons₂ (a b : List Char) (l : List (List Char)) :
    List.intercalate ['_'] (a :: b :: l) = a ++ '_' :: List.intercalate ['_'] (b :: l) := by
  simp [List.intercalate]

/-- An all-digit tail is a valid digit-core tail. -/
theorem validIntCoreGo_digits (l : List Char) (h : ∀ c ∈ l, c.isDigit = true) :
    validIntCoreGo l = true := by
  induction l with
  | nil => rfl
  | cons a t ih =>
    have ha := h a (by simp)
    simp only [validIntCoreGo, if_neg (digit_ne_underscore a ha), ha, Bool.true_and]
    exact ih (fun c hc => h c (by simp [hc]))

/-- A nonempty all-digit text is a valid digit core. -/
theorem validIntCore_digits (l : List Char) (hne : l ≠ [])
    (h : ∀ c ∈ l, c.isDigit = true) : validIntCore l = true := by
  obtain ⟨c, t, rfl⟩ := List.exists_cons_of_ne_nil hne
  simp only [validIntCore, h c (by simp), Bool.true_and]
  exact validIntCoreGo_digits t (fun x hx => h x (by simp [hx]))

/-- The digit-core tail check passes over an all-digit prefix. -/
theorem validIntCoreGo_append (ds tail : List Char)
    (h : ∀ c ∈ ds, c.isDigit = true) :
    validIntCoreGo (ds ++ tail) = validIntCoreGo tail := by
  induction ds with
  | nil => rfl
  | cons a t ih =>
    have ha := h a (by simp)
    simp only [List.cons_append, validIntCoreGo,
      if_neg (digit_ne_underscore a ha), ha, Bool.true_and]
    exact ih (fun c hc => h c (by simp [hc]))

/-- On a digit-headed text the tail check agrees with the full check. -/
theorem validIntCoreGo_eq_core (c : Char) (rest : List Char)
    (hc : c.isDigit = true) :
    validIntCoreGo (c :: rest) = validIntCore (c :: rest) := by
  simp only [validIntCoreGo, validIntCore, if_neg (digit_ne_underscore c hc)]

/-- A valid digit-core tail is all digits, or digits then an underscore
then a valid digit core. -/
theorem validIntCoreGo_split (rest : List Char) (h : validIntCoreGo rest = true) :
    (∀ c ∈ rest, c.isDigit = true) ∨
    ∃ d2 rest2, rest = d2 ++ '_' :: rest2 ∧ (∀ c ∈ d2, c.isDigit = true) ∧
      validIntCore rest2 = true := by
  induction rest with
  | nil => exact Or.inl (by simp)
  | cons a t ih =>
    by_cases ha : a = '_'
    · subst ha
      right
      cases t with
      | nil => exact absurd h (by decide)
      | cons d t2 =>
        have h2 : (d.isDigit && validIntCoreGo (d :: t2)) = true := h
        rw [Bool.and_eq_true] at h2
        obtain ⟨hd, hgo⟩ := h2
        refine ⟨[], d :: t2, rfl, by simp, ?_⟩
        rw [← validIntCoreGo_eq_core d t2 hd]
        exact hgo
    · simp only [validIntCoreGo, if_neg ha, Bool.and_eq_true] at h
      obtain ⟨ha2, hgo⟩ := h
      rcases ih hgo with hall | ⟨d2, rest2, heq, hd2, hv⟩
      · left
        intro c hc
        rcases List.mem_cons.mp hc with h1 | h1
        · subst h1; exact ha2
        · exact hall c h1
      · right
        refine ⟨a :: d2, rest2, by rw [heq, List.cons_append], ?_, hv⟩
        intro c hc
        rcases List.mem_cons.mp hc with h1 | h1
        · subst h1; exact ha2
        · exact hd2 c h1

/-- A valid digit core is an underscore-intercalation of nonempty digit
groups. -/
theorem validIntCore_decomp : ∀ (n : Nat) (cs : List Char), cs.length ≤ n →
    validIntCore cs = true →
    ∃ groups : List (List Char), groups ≠ [] ∧
      (∀ g ∈ groups, g ≠ [] ∧ ∀ c ∈ g, c.isDigit = true) ∧
      cs = List.intercalate ['_'] groups := by
  intro n
  induction n with
  | zero =>
    intro cs hlen hv
    have hnil : cs = [] := List.length_eq_zero.mp (Nat.le_zero.mp hlen)
    subst hnil
    simp [validIntCore] at hv
  | succ n ih =>
    intro cs hlen hv
    cases cs with
    | nil => simp [validIntCore] at hv
    | cons c rest =>
      simp only [validIntCore, Bool.and_eq_true] at hv
      obtain ⟨hc, hgo⟩ := hv
      rcases validIntCoreGo_split rest hgo with hall | ⟨d2, rest2, heq, hd2, hv2⟩
      · refine ⟨[c :: rest], by simp, ?_, (intercalate_single _).symm⟩
        intro g hg
        simp only [List.mem_singleton] at hg
        subst hg
        refine ⟨by simp, ?_⟩
        intro x hx
        rcases List.mem_cons.mp hx with h1 | h1
        · subst h1; exact hc
        · exact hall x h1
      · have hlen2 : rest2.length ≤ n := by
          rw [heq] at hlen
          simp only [List.length_cons, List.length_append] at hlen
          omega
        obtain ⟨groups2, hne2, hprop2, heq2⟩ := ih rest2 hlen2 hv2
        refine ⟨(c :: d2) :: groups2, by simp, ?_, ?_⟩
        · intro g hg
          rcases List.mem_cons.mp hg with h1 | h1
          · subst h1
            refine ⟨by simp, ?_⟩
            intro x hx
            rcases List.mem_cons.mp hx with h2 | h2
            · subst h2; exact hc
            · exact hd2 x h2
          · exact hprop2 g h1
        · obtain ⟨g2, gs2, rfl⟩ := List.exists_cons_of_ne_nil hne2
          rw [intercalate_cons₂, ← heq2, heq]
          simp [List.cons_append]

/-- An underscore-intercalation of nonempty digit groups is a valid digit
core. -/
theorem validIntCore_of_decomp : ∀ (groups : List (List Char)), groups ≠ [] →
    (∀ g ∈ groups, g ≠ [] ∧ ∀ c ∈ g, c.isDigit = true) →
    validIntCore (List.intercalate ['_'] groups) = true := by
  intro groups
  induction groups with
  | nil => intro h _; exact absurd rfl h
  | cons g gs ih =>
    intro _ hp
    obtain ⟨hg, hgd⟩ := hp g (by simp)
    cases gs with
    | nil =>
      rw [intercalate_single]
      exact validIntCore_digits g hg hgd
    | cons g2 gs2 =>
      rw [intercalate_cons₂]
      obtain ⟨c, gt, rfl⟩ := List.exists_cons_of_ne_nil hg
      have hrest := ih (by simp) (fun g' hg' => hp g' (by simp [hg']))
      cases hre : List.intercalate ['_'] (g2 :: gs2) with
      | nil => rw [hre] at hrest; simp [validIntCore] at hrest
      | cons r0 rtl =>
        rw [hre] at hrest
        simp only [validIntCore, Bool.and_eq_true] at hrest
        obtain ⟨hr0, hgo⟩ := hrest
        simp only [List.cons_append, validIntCore, Bool.and_eq_true]
        refine ⟨hgd c (by simp), ?_⟩
        rw [validIntCoreGo_append gt _ (fun x hx => hgd x (by simp [hx]))]
        have h3 : validIntCoreGo ('_' :: r0 :: rtl) =
            (r0.isDigit && validIntCoreGo (r0 :: rtl)) := rfl
        rw [h3, validIntCoreGo_eq_core r0 rtl hr0]
        show (r0.isDigit && (r0.isDigit && validIntCoreGo rtl)) = true
        rw [hr0, hgo]
        rfl

/-- Every character of an intercalation of digit groups is a digit or an
underscore. -/
theorem mem_intercalate_digit (groups : List (List Char))
    (h : ∀ g ∈ groups, ∀ c ∈ g, c.isDigit = true) :
    ∀ c ∈ List.intercalate ['_'] groups, c.isDigit = true ∨ c = '_' := by
  induction groups with
  | nil => intro c hc; simp [List.intercalate] at hc
  | cons g gs ih =>
    cases gs with
    | nil =>
      intro c hc
      rw [intercalate_single] at hc
      exact Or.inl (h g (by simp) c hc)
    | cons g2 gs2 =>
      intro c hc
      rw [intercalate_cons₂] at hc
      rcases List.mem_append.mp hc with h1 | h1
      · exact Or.inl (h g (by simp) c h1)
      · rcases List.mem_cons.mp h1 with h2 | h2
        · exact Or.inr h2
        · exact ih (fun g' hg' c' hc' => h g' (by simp [hg']) c' hc') c h2

/-- The intercalation of a chunk list starts with its first chunk. -/
theorem intercalate_head (g : List Char) (gs : List (List Char)) :
    ∃ tl, List.intercalate ['_'] (g :: gs) = g ++ tl := by
  cases gs with
  | nil => exact ⟨[], by rw [intercalate_single, List.append_nil]⟩
  | cons g2 gs2 =>
    exact ⟨'_' :: List.intercalate ['_'] (g2 :: gs2), intercalate_cons₂ _ _ _⟩

/-- The modelled `int(...)` accepts a string exactly when it has the
declarative shape `pyIntShape`. -/
theorem pyIntParseAscii_isSome_iff (cs : List Char) :
    (∃ n, pyIntParseAscii cs = some n) ↔ pyIntShapeAscii cs := by
  constructor
  · rintro ⟨n, hn⟩
    obtain ⟨w1, w2, hdec, hw1, hw2⟩ := pyStrip_decomp cs
    unfold pyIntParseAscii at hn
    cases ht : pyStrip cs with
    | nil => rw [ht] at hn; exact absurd hn (by simp)
    | cons c0 core =>
      rw [ht] at hn hdec
      replace hn : (if c0 = '+' then
          (if validIntCore core = true then some (intCoreVal core) else Option.none)
        else if c0 = '-' then
          (if validIntCore core = true then some (-(intCoreVal core)) else Option.none)
        else (if validIntCore (c0 :: core) = true then some (intCoreVal (c0 :: core))
          else Option.none)) = some n := hn
      have build : ∀ (sg : List Char) (body : List Char),
          (sg = [] ∨ sg = ['+'] ∨ sg = ['-']) →
          c0 :: core = sg ++ body → validIntCore body = true → pyIntShapeAscii cs := by
        intro sg body hsg hb hv
        obtain ⟨groups, hgne, hgp, hgeq⟩ :=
          validIntCore_decomp body.length body le_rfl hv
        refine ⟨w1, w2, sg, groups, ?_, List.all_eq_true.mpr hw1,
          List.all_eq_true.mpr hw2, hsg, hgne, ?_⟩
        · rw [hdec, hb, hgeq]
          simp [List.append_assoc]
        · intro g hg
          exact ⟨(hgp g hg).1, List.all_eq_true.mpr (hgp g hg).2⟩
      by_cases hp : c0 = '+'
      · subst hp
        rw [if_pos rfl] at hn
        by_cases hv : validIntCore core = true
        · exact build ['+'] core (Or.inr (Or.inl rfl)) rfl hv
        · rw [if_neg hv] at hn; exact absurd hn (by simp)
      · by_cases hm : c0 = '-'
        · subst hm
          rw [if_neg hp, if_pos rfl] at hn
          by_cases hv : validIntCore core = true
          · exact build ['-'] core (Or.inr (Or.inr rfl)) rfl hv
          · rw [if_neg hv] at hn; exact absurd hn (by simp)
        · rw [if_neg hp, if_neg hm] at hn
          by_cases hv : validIntCore (c0 :: core) = true
          · exact build [] (c0 :: core) (Or.inl rfl) rfl hv
          · rw [if_neg hv] at hn; exact absurd hn (by simp)
  · rintro ⟨w1, w2, sg, groups, hdec, hw1, hw2, hsg, hgne, hgp⟩
    have hw1' : ∀ c ∈ w1, pyIntWs c = true := List.all_eq_true.mp hw1
    have hw2' : ∀ c ∈ w2, pyIntWs c = true := List.all_eq_true.mp hw2
    have hgp' : ∀ g ∈ groups, g ≠ [] ∧ ∀ c ∈ g, c.isDigit = true :=
      fun g hg => ⟨(hgp g hg).1, List.all_eq_true.mp (hgp g hg).2⟩
    obtain ⟨g1, gs1, rfl⟩ := List.exists_cons_of_ne_nil hgne
    obtain ⟨c1, g1t, rfl⟩ := List.exists_cons_of_ne_nil (hgp' g1 (by simp)).1
    have hc1 : c1.isDigit = true := (hgp' (c1 :: g1t) (by simp)).2 c1 (by simp)
    obtain ⟨tl, htl⟩ := intercalate_head (c1 :: g1t) gs1
    have hvc := validIntCore_of_decomp ((c1 :: g1t) :: gs1) (by simp) hgp'
    have hmemid : ∀ c ∈ List.intercalate ['_'] ((c1 :: g1t) :: gs1),
        pyIntWs c = false := by
      intro c hc
      rcases mem_intercalate_digit _ (fun g hg c2 hc2 => (hgp' g hg).2 c2 hc2) c hc
        with hd | hu
      · exact pyIntWs_of_digit c hd
      · subst hu; decide
    have hmid : ∀ c ∈ sg ++ List.intercalate ['_'] ((c1 :: g1t) :: gs1),
        pyIntWs c = false := by
      intro c hc
      rcases List.mem_append.mp hc with h1 | h1
      · rcases hsg with h2 | h2 | h2 <;> subst h2
        · simp at h1
        · simp only [List.mem_singleton] at h1; subst h1; decide
        · simp only [List.mem_singleton] at h1; subst h1; decide
      · exact hmemid c h1
    have hmne : sg ++ List.intercalate ['_'] ((c1 :: g1t) :: gs1) ≠ [] := by
      simp [htl]
    have hstrip : pyStrip cs =
        sg ++ List.intercalate ['_'] ((c1 :: g1t) :: gs1) := by
      rw [hdec, show w1 ++ sg ++ List.intercalate ['_'] ((c1 :: g1t) :: gs1) ++ w2 =
        w1 ++ ((sg ++ List.intercalate ['_'] ((c1 :: g1t) :: gs1)) ++ w2) by
          simp [List.append_assoc]]
      exact pyStrip_sandwich w1 w2 _ hw1' hw2' hmid hmne
    unfold pyIntParseAscii
    rcases hsg with h2 | h2 | h2 <;> subst h2
    · rw [hstrip, List.nil_append, htl]
      rw [htl] at hvc
      simp only [List.cons_append] at hvc ⊢
      simp [digit_ne_plus c1 hc1, digit_ne_minus c1 hc1, hvc]
    · rw [hstrip]
      simp only [List.cons_append, List.nil_append]
      simp [hvc]
    · rw [hstrip]
      simp only [List.cons_append, List.nil_append]
      simp [hvc]

/-- `int(...)` succeeds exactly on the strings whose preprocessed text has
the declarative accepted shape. -/
theorem pyIntParse_isSome_iff (s : String) :
    (∃ n, pyIntParse s = some n) ↔ pyIntShape s :=
  pyIntParseAscii_isSome_iff (pyIntTransform s.data)

/-- A digit character's code point is below 127. -/
theorem digit_toNat_lt (c : Char) (h : c.isDigit = true) : c.toNat < 127 := by
  simp only [Char.isDigit, Bool.and_eq_true, decide_eq_true_eq] at h
  have h2 := h.2
  change c.val ≤ 57 at h2
  have h3 : c.val.toNat ≤ 57 := by exact_mod_cast h2
  show c.val.toNat < 127
  omega

/-- The `int(...)` argument preprocessing fixes texts of code points below
127; in particular it fixes every ASCII digit sequence. -/
theorem pyIntTransform_ascii (cs : List Char) (h : ∀ c ∈ cs, c.toNat < 127) :
    pyIntTransform cs = cs := by
  induction cs with
  | nil => rfl
  | cons a t ih =>
    have ha : pyIntTransformChar a = a := by
      simp [pyIntTransformChar, h a (List.mem_cons_self a t)]
    have ht : pyIntTransform t = t := ih (fun c hc => h c (List.mem_cons_of_mem a hc))
    simp only [pyIntTransform, List.map_cons, ha]
    simpa [pyIntTransform] using ht

/-- C7 counterexample: the claim says a CSV field becomes an integer
exactly when its entire text is an unsigned digit sequence; but the code's
`int(val)` also accepts the signed text `"-3"`, stored as the integer `-3`
instead of remaining text, and the Unicode digit text `"٣"` (Arabic-Indic
three), stored as the integer `3`. -/
theorem c7_signed_field_coerced :
    (convertField "-3" = .int (-3) ∧ isIntLiteral "-3" = false) ∧
    (convertField "٣" = .int 3 ∧ isIntLiteral "٣" = false) := by
  refine ⟨⟨by decide, by decide⟩, ⟨by decide, by decide⟩⟩

/-- C7 (amended): a CSV field is stored as an integer exactly when its text
is what Python's `int(...)` accepts — after the preprocessing that maps
Unicode whitespace to blanks and Unicode decimal digits to ASCII digits,
optional surrounding whitespace, an optional single sign, and a digit core
with single underscores between digits; in particular every unsigned digit
sequence (the language's own integer-literal shape) is stored as its
integer value, and `importcsv` stores exactly the per-field coercion of
every record. -/
theorem c7_csv_field_coercion (s : String) :
    ((∃ n, convertField s = .int n) ↔ pyIntShape s) ∧
    (isIntLiteral s = true →
      convertField s = .int (Int.ofNat (natOfDigits s.data))) ∧
    (∀ (ctx : Ctx) (fuel : Nat) (st : State) (file name : String)
        (cols : List String) (recs : List (List String)),
      ctx.csv file = some (cols :: recs) →
      execStmt ctx (fuel+1) st (.importCSV file name) =
        .ok { st with
              vars := Env.insert st.vars name (.ref st.heap.length)
              heap := st.heap ++
                [{ columns := cols, data := recs.map (fun r => r.map convertField) }]
              output := st.output ++ [.importedCSV name recs.length] }) := by
  refine ⟨?_, ?_, ?_⟩
  · constructor
    · rintro ⟨n, hn⟩
      apply (pyIntParse_isSome_iff s).mp
      unfold convertField at hn
      cases hp : pyIntParse s with
      | none => rw [hp] at hn; exact absurd hn (by simp)
      | some m => exact ⟨m, rfl⟩
    · intro hs
      obtain ⟨n, hp⟩ := (pyIntParse_isSome_iff s).mpr hs
      refine ⟨n, ?_⟩
      unfold convertField
      rw [hp]
  · intro hlit
    simp only [isIntLiteral, Bool.and_eq_true, decide_eq_true_eq] at hlit
    obtain ⟨hne, hall0⟩ := hlit
    have hall : ∀ c ∈ s.data, c.isDigit = true := List.all_eq_true.mp hall0
    have hstrip : pyStrip s.data = s.data := by
      have hs := pyStrip_sandwich [] [] s.data (by simp) (by simp)
        (fun c hc => pyIntWs_of_digit c (hall c hc)) hne
      simpa using hs
    have hp : pyIntParse s = some (Int.ofNat (natOfDigits s.data)) := by
      unfold pyIntParse
      rw [pyIntTransform_ascii s.data (fun c hc => digit_toNat_lt c (hall c hc))]
      unfold pyIntParseAscii
      obtain ⟨c0, t0, hs0⟩ := List.exists_cons_of_ne_nil hne
      rw [hstrip, hs0]
      have hc0 : c0.isDigit = true := hall c0 (by rw [hs0]; simp)
      have hv : validIntCore (c0 :: t0) = true :=
        validIntCore_digits _ (by simp) (fun c hc => hall c (by rw [hs0]; exact hc))
      simp only [digit_ne_plus c0 hc0, digit_ne_minus c0 hc0, if_false, hv, if_true]
      have hfil : (c0 :: t0).filter (fun c => c ≠ '_') = c0 :: t0 := by
        rw [List.filter_eq_self]
        intro a ha
        exact decide_eq_true
          (digit_ne_underscore a (hall a (by rw [hs0]; exact ha)))
      rw [intCoreVal, hfil, ← hs0]
    unfold convertField
    rw [hp]
  · intro ctx fuel st file name cols recs h
    unfold execStmt
    simp [exec, h]

/-- Witness for C7 (amended) at the unsigned digit sequence `"7"`. -/
theorem c7_csv_field_coercion_witness :
    convertField "7" = .int 7 :=
  (c7_csv_field_coercion "7").2.1 (by decide)

/-- Taking as many elements as the `takeWhile` run recovers the run. -/
theorem take_takeWhile_length (p : Char → Bool) (l : List Char) :
    l.take (l.takeWhile p).length = l.takeWhile p := by
  induction l with
  | nil => rfl
  | cons a t ih =>
    by_cases hp : p a
    · simp [List.takeWhile_cons, hp, ih]
    · simp [List.takeWhile_cons, hp]

/-- Dropping as many elements as the `takeWhile` run yields the
`dropWhile` remainder. -/
theorem drop_takeWhile_length (p : Char → Bool) (l : List Char) :
    l.drop (l.takeWhile p).length = l.dropWhile p := by
  induction l with
  | nil => rfl
  | cons a t ih =>
    by_cases hp : p a
    · simp [List.takeWhile_cons, List.dropWhile_cons, hp, ih]
    · simp [List.takeWhile_cons, List.dropWhile_cons, hp]

/-- The remainder a literal match leaves is a suffix of the input. -/
theorem matchLit_rest_sublist (lit cs v r : List Char)
    (h : matchLit lit cs = some (v, r)) : r.Sublist cs := by
  unfold matchLit at h
  split at h
  · obtain ⟨-, rfl⟩ : lit = v ∧ cs.drop lit.length = r := by simpa using h
    exact List.drop_sublist _ _
  · exact absurd h (by simp)

/-- The remainder a keyword match leaves is a suffix of the input. -/
theorem matchKeyword_rest_sublist (kw cs v r : List Char)
    (h : matchKeyword kw cs = some (v, r)) : r.Sublist cs := by
  unfold matchKeyword at h
  split at h
  · split at h
    · obtain ⟨-, rfl⟩ : _ ∧ _ = r := by simpa using h
      exact matchLit_rest_sublist kw cs _ _ (by assumption)
    · exact absurd h (by simp)
  · exact absurd h (by simp)

/-- The remainder a string-literal match leaves is contained in the
input. -/
theorem matchStringLit_rest_sublist (cs v r : List Char)
    (h : matchStringLit cs = some (v, r)) : r.Sublist cs := by
  unfold matchStringLit at h
  split at h
  next rest =>
    split at h
    next rest2 heq =>
      obtain ⟨-, rfl⟩ : _ ∧ rest2 = r := by simpa using h
      have h0 : (rest.dropWhile (fun c => c ≠ '"')).Sublist rest :=
        List.dropWhile_sublist _
      rw [heq] at h0
      exact ((List.sublist_cons_self '"' rest2).trans h0).trans
        (List.sublist_cons_self '"' rest)
    next => exact absurd h (by simp)
  next => exact absurd h (by simp)

/-- The remainder a character-class match leaves is contained in the
input. -/
theorem matchClass_rest_sublist (p : Char → Bool) (cs v r : List Char)
    (h : matchClass p cs = some (v, r)) : r.Sublist cs := by
  unfold matchClass at h
  split at h
  next c tl =>
    obtain ⟨-, -, rfl⟩ : p c = true ∧ c :: tl.takeWhile p = v ∧
        tl.dropWhile p = r := by simpa using h
    exact (List.dropWhile_sublist _).trans (List.sublist_cons_self c tl)
  next => exact absurd h (by simp)

/-- The remainder a comment match leaves is contained in the input. -/
theorem matchComment_rest_sublist (cs v r : List Char)
    (h : matchComment cs = some (v, r)) : r.Sublist cs := by
  unfold matchComment at h
  split at h
  · rename_i rest
    obtain ⟨-, rfl⟩ : _ ∧ rest.dropWhile (fun c => c ≠ '\n') = r := by
      simpa using h
    exact (List.dropWhile_sublist _).trans (List.sublist_cons_self '#' rest)
  · exact absurd h (by simp)

/-- The remainder an identifier match leaves is contained in the input. -/
theorem matchIdent_rest_sublist (cs v r : List Char)
    (h : matchIdent cs = some (v, r)) : r.Sublist cs := by
  unfold matchIdent at h
  split at h
  next c tl =>
    obtain ⟨-, -, rfl⟩ : (c.isAlpha = true ∨ c = '_') ∧
        c :: tl.takeWhile isPyWordChar = v ∧ tl.dropWhile isPyWordChar = r := by
      simpa using h
    exact (List.dropWhile_sublist _).trans (List.sublist_cons_self c tl)
  next => exact absurd h (by simp)

/-- The remainder the scanner's pattern cascade leaves at a position is
contained in the input at that position. -/
theorem firstMatch_rest_sublist (cs : List Char) (t : Option String)
    (v r : List Char) (h : firstMatch cs = some (t, v, r)) : r.Sublist cs := by
  unfold firstMatch at h
  repeat' split at h
  all_goals simp only [Option.some.injEq, Prod.mk.injEq, reduceCtorEq] at h
  all_goals obtain ⟨-, -, rfl⟩ := h
  all_goals first
    | exact matchLit_rest_sublist _ _ _ _ (by assumption)
    | exact matchKeyword_rest_sublist _ _ _ _ (by assumption)
    | exact matchStringLit_rest_sublist _ _ _ (by assumption)
    | exact matchClass_rest_sublist _ _ _ _ (by assumption)
    | exact matchComment_rest_sublist _ _ _ (by assumption)
    | exact matchIdent_rest_sublist _ _ _ (by assumption)

/-- If the identifier pattern matches some text at the start of an ASCII
input, then the keyword pattern for that exact text (keyword body plus word
boundary) also matches there, with the same remainder.  This is the heart
of keyword reservation on ASCII input: the identifier pattern takes the
maximal ASCII word-character run, and an ASCII character is a `\w` word
character exactly when it is an identifier character. -/
theorem matchKeyword_of_matchIdent (cs k rest : List Char)
    (hascii : ∀ c ∈ cs, c.toNat < 128)
    (h : matchIdent cs = some (k, rest)) :
    matchKeyword k cs = some (k, rest) := by
  cases cs with
  | nil => exact absurd h (by simp [matchIdent])
  | cons c tl =>
    by_cases hc : (c.isAlpha || c == '_') = true
    · rw [matchIdent, if_pos hc] at h
      obtain ⟨hk, hr⟩ : c :: tl.takeWhile isPyWordChar = k ∧
          tl.dropWhile isPyWordChar = rest := by
        simpa using h
      subst hk
      subst hr
      have hbound : wordBoundary (tl.dropWhile isPyWordChar) = true := by
        cases hh : tl.dropWhile isPyWordChar with
        | nil => rfl
        | cons d dtl =>
          have hw := List.head?_dropWhile_not isPyWordChar tl
          rw [hh] at hw
          simp only [List.head?_cons] at hw
          have hd : d ∈ tl := by
            have hsub : (tl.dropWhile isPyWordChar).Sublist tl :=
              List.dropWhile_sublist _
            exact hsub.subset (by rw [hh]; exact List.mem_cons_self d dtl)
          have hda : d.toNat < 128 := hascii d (List.mem_cons_of_mem c hd)
          simp [wordBoundary, reWordChar, hda, hw]
      have htake : (c :: tl).take (c :: tl.takeWhile isPyWordChar).length =
          c :: tl.takeWhile isPyWordChar := by
        simp only [List.length_cons, List.take_succ_cons, List.cons.injEq, true_and]
        exact take_takeWhile_length isPyWordChar tl
      have hdrop : (c :: tl).drop (c :: tl.takeWhile isPyWordChar).length =
          tl.dropWhile isPyWordChar := by
        simp only [List.length_cons, List.drop_succ_cons]
        exact drop_takeWhile_length isPyWordChar tl
      unfold matchKeyword matchLit
      rw [if_pos htake, hdrop]
      simp [hbound]
    · rw [matchIdent, if_neg hc] at h
      exact absurd h (by simp)

/-- If the scanner's priority cascade selects the identifier pattern, every
keyword pattern failed at that position and the identifier matcher produced
the token text. -/
theorem firstMatch_ident_inversion (cs v r : List Char)
    (h : firstMatch cs = some (some "IDENTIFIER", v, r)) :
    matchIdent cs = some (v, r) ∧
    ∀ k ∈ keywordCharLists, matchKeyword k cs = Option.none := by
  unfold firstMatch at h
  repeat' split at h
  all_goals simp at h
  obtain ⟨rfl, rfl⟩ := h
  constructor
  · assumption
  · intro k hk
    simp only [keywordCharLists, keywordSpellings, List.map_cons, List.map_nil,
      List.mem_cons, List.not_mem_nil, or_false] at hk
    rcases hk with rfl | rfl | rfl | rfl | rfl | rfl | rfl | rfl | rfl | rfl <;>
      assumption

/-- On ASCII input the scanning loop never emits an identifier token
spelled like a keyword. -/
theorem tokenizeGo_ident_not_keyword : ∀ (fuel : Nat) (cs : List Char)
    (line col : Nat) (ts : List Token),
    (∀ c ∈ cs, c.toNat < 128) →
    tokenizeGo fuel cs line col = .ok ts →
    ∀ t ∈ ts, t.type = "IDENTIFIER" → t.value ∉ keywordSpellings := by
  intro fuel
  induction fuel with
  | zero =>
    intro cs line col ts hascii h t ht htype
    cases cs with
    | nil =>
      obtain rfl : ([] : List Token) = ts := by simpa [tokenizeGo] using h
      simp at ht
    | cons c0 tl =>
      rw [show tokenizeGo 0 (c0 :: tl) line col = .error .outOfFuel from rfl] at h
      exact absurd h (by simp)
  | succ n ih =>
    intro cs line col ts hascii h t ht htype
    cases cs with
    | nil =>
      obtain rfl : ([] : List Token) = ts := by simpa [tokenizeGo] using h
      simp at ht
    | cons c0 tl =>
      rw [show tokenizeGo (n+1) (c0 :: tl) line col =
        (match firstMatch (c0 :: tl) with
          | Option.none => .error .unexpectedChar
          | some (tag?, text, rest) =>
            emitStep tag? text line col
              (tokenizeGo n rest (advancePos line col text).1
                (advancePos line col text).2)) from rfl] at h
      cases hfm : firstMatch (c0 :: tl) with
      | none => rw [hfm] at h; exact absurd h (by simp)
      | some trip =>
        obtain ⟨tag?, text, rest⟩ := trip
        rw [hfm] at h
        replace h : emitStep tag? text line col
            (tokenizeGo n rest (advancePos line col text).1
              (advancePos line col text).2) = Except.ok ts := h
        have hra : ∀ c ∈ rest, c.toNat < 128 := fun c hc =>
          hascii c ((firstMatch_rest_sublist _ _ _ _ hfm).subset hc)
        cases hrec : tokenizeGo n rest (advancePos line col text).1
            (advancePos line col text).2 with
        | error e => rw [hrec] at h; exact absurd h (by simp [emitStep])
        | ok ts2 =>
          rw [hrec] at h
          cases tag? with
          | none =>
            replace h : Except.ok ts2 = Except.ok ts := h
            cases h
            exact ih rest _ _ _ hra hrec t ht htype
          | some tag =>
            replace h : Except.ok (mkToken tag text line col :: ts2) =
              Except.ok ts := h
            cases h
            rcases List.mem_cons.mp ht with h1 | h1
            · subst h1
              simp only [mkToken] at htype
              subst htype
              obtain ⟨hident, hkw⟩ := firstMatch_ident_inversion _ _ _ hfm
              intro hmem
              simp only [mkToken, if_neg (by decide : ¬ ("IDENTIFIER" = "STRING"))]
                at hmem
              have hdata : text ∈ keywordCharLists :=
                List.mem_map_of_mem String.data hmem
              have hkm := matchKeyword_of_matchIdent _ _ _ hascii hident
              rw [hkw text hdata] at hkm
              exact absurd hkm (by simp)
            · exact ih rest _ _ _ hra hrec t h1 htype

/-- C8 (counterexample): the claim says the scanner never emits an
identifier token spelled like a keyword, for every source text; but the
keyword patterns end in the Unicode-aware boundary `\b`, so on the source
text `print٣` (with the Arabic-Indic digit three, a `\w` word character)
the pattern `print\b` fails while the ASCII identifier pattern still
matches: the scan succeeds and emits an identifier token spelled
`print`, followed by a NUMBER token for the Unicode digit. -/
theorem c8_keyword_identifier_emitted :
    tokenize "print٣" = .ok
      [{ type := "IDENTIFIER", value := "print", line := 1, column := 1 },
       { type := "NUMBER", value := "٣", line := 1, column := 6 }] ∧
    "print" ∈ keywordSpellings := by
  exact ⟨by rfl, by decide⟩

/-- C8 (amended): on ASCII source texts the scanner never emits an
identifier token whose text is one of the ten keyword spellings: keyword
patterns are tried before the general identifier pattern, on ASCII text the
word boundary after a keyword holds exactly where the identifier run stops,
and the first matching pattern wins. -/
theorem c8_keyword_spellings_reserved (code : String) (ts : List Token)
    (hascii : ∀ c ∈ code.data, c.toNat < 128)
    (h : tokenize code = .ok ts) :
    ∀ t ∈ ts, t.type = "IDENTIFIER" → t.value ∉ keywordSpellings :=
  tokenizeGo_ident_not_keyword (code.data.length + 1) code.data 1 1 ts hascii h

/-- Witness for C8 (amended) at the ASCII source text `printx`, which scans
to a single identifier token. -/
theorem c8_keyword_spellings_reserved_witness :
    ({ type := "IDENTIFIER", value := "printx", line := 1, column := 1 } :
      Token).value ∉ keywordSpellings :=
  c8_keyword_spellings_reserved "printx"
    [{ type := "IDENTIFIER", value := "printx", line := 1, column := 1 }]
    (by decide)
    (by rfl)
    { type := "IDENTIFIER", value := "printx", line := 1, column := 1 }
    (by simp) (by rfl)

/-- Witness for C4 applied at a concrete successful query. -/
theorem c4_query_restores_environment_witness :
    ∀ st2, execStmt ctxDemo 1 stDemo
        (.query "T" (some { left := .ident "id", op := "GREATER", right := .num 0 })) =
        .ok st2 →
      st2.vars = stDemo.vars := by
  intro st2 h
  exact ((c4_query_restores_environment ctxDemo 1 stDemo "T"
    { left := .ident "id", op := "GREATER", right := .num 0 }).1 st2 h).1

end Tabulae
